import Mathlib

/-!
# Verification of `atlite/datasets/cmip.py`

A shallow embedding of the CMIP dataset adapter of atlite.  Python data is
modelled as follows:

* Python `dict`s with string keys and string values (the ESGF query
  parameters) become insertion-ordered association lists (`StrMap`);
  `dict.__setitem__` updates in place or appends, `dict.pop` removes.
* `xarray.Dataset`s become a record carrying `data_vars` (variable name →
  level-indexed list of rational grid values), the `lev` and `lon`
  coordinate axes, and the attribute record.  A grid value over
  (time, y, x) is collapsed to a single rational number: no claim depends
  on the content along those dimensions.  Temporal and spatial subsetting
  (`.sel` on time/x/y) restricts coordinate ranges only and is the
  identity in this value model; level subsetting (`.sel(lev=...)`) is
  modelled because the wind calculator's behaviour depends on it.
* Exceptions become `Except PyErr`; `KeyError`, `ValueError`,
  `TypeError`, `IndexError`, `AttributeError` and unbound local variable
  errors are distinguished.
* The ESGF search service, `xarray.open_mfdataset` and the numpy kernels
  `sqrt`/`log` are external collaborators, supplied by an `Env` record.
* The optional download lock becomes a boolean (supplied / not supplied)
  and lock usage is recorded in an event trace (`Event`), together with
  every catalog search and every file-open step, so that temporal claims
  about lock extent and retrieval order can be stated.
-/

/-- Python exception values raised by the module. -/
inductive PyErr where
  | valueError (msg : String)
  | typeError (msg : String)
  | keyError (key : String)
  | indexError
  | attributeError (name : String)
  | unboundLocal (name : String)
  deriving Repr, DecidableEq

/-- A Python `dict` with string keys and values: an insertion-ordered
association list. -/
abbrev StrMap := List (String × String)

/-- `d[k]` as an `Except`: raises `KeyError` when the key is absent. -/
def dictGetE (m : StrMap) (k : String) : Except PyErr String :=
  match List.lookup k m with
  | some v => .ok v
  | none => .error (.keyError k)

/-- `d[k] = v`: update the value in place when the key is present,
otherwise append the binding at the end (Python dict insertion order). -/
def dictSet (m : StrMap) (k v : String) : StrMap :=
  match m with
  | [] => [(k, v)]
  | (k', v') :: rest => if k' = k then (k, v) :: rest else (k', v') :: dictSet rest k v

/-- `d.pop(k)`: remove the binding; raises `KeyError` when absent. -/
def dictPopE (m : StrMap) (k : String) : Except PyErr StrMap :=
  match m with
  | [] => .error (.keyError k)
  | (k', v') :: rest =>
    if k' = k then .ok rest
    else match dictPopE rest k with
         | .ok rest' => .ok ((k', v') :: rest')
         | .error e => .error e

/- ## Longitude normalization (`_rename_and_fix_coords`, lines 441-444)

`ds = ds.assign_coords(lon=(((ds.lon + 180) % 360) - 180))` followed by
`ds = ds.sortby("lon")`.  numpy `%` on reals takes the sign of the
divisor: `x % m = x - m * floor(x / m)` for `m > 0`. -/

/-- Python/numpy `x % m` for rationals (`m > 0` in all uses). -/
def pymod (x m : ℚ) : ℚ := x - m * (⌊x / m⌋ : ℤ)

/-- `((lon + 180) % 360) - 180`, the elementwise longitude wrap. -/
def wrapLon (l : ℚ) : ℚ := pymod (l + 180) 360 - 180

/-- `sortby("lon")`: ascending stable sort of the longitude axis. -/
def sortLon (ls : List ℚ) : List ℚ := List.insertionSort (· ≤ ·) ls

/-- The longitude fix applied by `_rename_and_fix_coords`: wrap every
longitude to [-180, 180), then sort ascending. -/
def fixLon (ls : List ℚ) : List ℚ := sortLon (ls.map wrapLon)

/- ## Datasets -/

/-- An attribute record: the module stores the (string-valued) ESGF query
parameters together with the `variables` name list in `ds.attrs`.  The
`variables` key of the Python attribute dict is the `varNames` field. -/
structure Attrs where
  params : StrMap
  varNames : List String
  deriving Repr, DecidableEq

/-- Shallow model of an `xarray.Dataset`: named data variables (each a
level-indexed list of grid values), the `lev` and `lon` coordinate axes
and the attribute record. -/
structure Dataset where
  data_vars : List (String × List ℚ)
  lev : List ℚ
  lon : List ℚ
  attrs : Attrs
  deriving Repr, DecidableEq

/-- The variable names of a dataset (`list(ds.keys())`). -/
def Dataset.names (ds : Dataset) : List String := ds.data_vars.map Prod.fst

/-- `name in ds.data_vars`. -/
def Dataset.hasVar (ds : Dataset) (n : String) : Bool :=
  ds.data_vars.any (fun p => p.1 = n)

/-- Attribute access `ds.<n>`: raises `AttributeError` when the variable
is missing. -/
def Dataset.getVarA (ds : Dataset) (n : String) : Except PyErr (List ℚ) :=
  match List.lookup n ds.data_vars with
  | some v => .ok v
  | none => .error (.attributeError n)

/-- `ds[n] = v`: replace the variable in place, or append it. -/
def Dataset.setVar (ds : Dataset) (n : String) (v : List ℚ) : Dataset :=
  if ds.hasVar n then
    { ds with data_vars := ds.data_vars.map (fun p => if p.1 = n then (n, v) else p) }
  else
    { ds with data_vars := ds.data_vars ++ [(n, v)] }

/-- `ds.drop_vars(n)` for a single name, raising `ValueError` when the
variable is absent (xarray's default `errors="raise"`). -/
def Dataset.dropVarE (ds : Dataset) (n : String) : Except PyErr Dataset :=
  if ds.hasVar n then
    .ok { ds with data_vars := ds.data_vars.filter (fun p => ¬ p.1 = n) }
  else
    .error (.valueError ("cannot drop variable " ++ n))

/-- The pruning loop `for variable in list(ds.keys()): if variable not in
keep: ds = ds.drop_vars(variable)`: every dropped name is taken from the
dataset itself, so the loop is equivalent to keeping exactly the
variables whose name is in `keep`. -/
def Dataset.keepVars (ds : Dataset) (keep : List String) : Dataset :=
  { ds with data_vars := ds.data_vars.filter (fun p => p.1 ∈ keep) }

/-- `ds.rename(old: new)`: raises `ValueError` when `old` is absent. -/
def Dataset.renameVarE (ds : Dataset) (old new : String) : Except PyErr Dataset :=
  if ds.hasVar old then
    .ok { ds with data_vars := ds.data_vars.map (fun p => if p.1 = old then (new, p.2) else p) }
  else
    .error (.valueError ("cannot rename missing variable " ++ old))

/-- Restrict a level-indexed value list to the indices whose level
coordinate lies between the two bounds. -/
def filterByLev (lev : List ℚ) (vals : List ℚ) (lo hi : ℚ) : List ℚ :=
  ((lev.zip vals).filter (fun p => lo ≤ p.1 ∧ p.1 ≤ hi)).map Prod.snd

/-- `ds.sel(lev=slice(a, b))`: keep the entries of the level axis lying
between the two slice bounds (ordered either way), and restrict every
data variable to the corresponding level indices. -/
def Dataset.selLev (ds : Dataset) (a b : ℚ) : Dataset :=
  { ds with
    lev := ds.lev.filter (fun x => min a b ≤ x ∧ x ≤ max a b),
    data_vars := ds.data_vars.map (fun p => (p.1, filterByLev ds.lev p.2 (min a b) (max a b))) }

/-- `xr.merge(dsets)` for variable-disjoint datasets: union of the data
variables, coordinates taken from the first dataset. -/
def mergeTwo (d1 d2 : Dataset) : Dataset :=
  { d1 with data_vars := d1.data_vars ++ d2.data_vars.filter (fun p => ¬ d1.hasVar p.1) }

def emptyDataset : Dataset := ⟨[], [], [], ⟨[], []⟩⟩

def mergeDatasets (dsets : List Dataset) : Dataset :=
  match dsets with
  | [] => emptyDataset
  | d :: rest => rest.foldl mergeTwo d

/-- The feature registry of the module (`features`, lines 32-40). -/
def features : List (String × List String) :=
  [("wind", ["wnd", "z", "ua", "va", "ta", "hus", "pa"]),
   ("influx", ["influx", "outflux"]),
   ("wind10m", ["ua10m", "va10m", "wnd10m"]),
   ("surface", ["temperature", "humidity", "pressure"])]

/- ## Temporal coverage filter (`_year_in_file`, lines 384-401) -/

/-- Decimal value of a digit character. -/
def digitVal (c : Char) : Option Nat :=
  if c = '0' then some 0 else if c = '1' then some 1 else if c = '2' then some 2
  else if c = '3' then some 3 else if c = '4' then some 4 else if c = '5' then some 5
  else if c = '6' then some 6 else if c = '7' then some 7 else if c = '8' then some 8
  else if c = '9' then some 9 else none

def charsToNatAux : List Char → Nat → Option Nat
  | [], acc => some acc
  | c :: rest, acc =>
    match digitVal c with
    | some d => charsToNatAux rest (acc * 10 + d)
    | none => none

/-- Python `int` on a string of decimal digits (most significant first);
an empty or non-digit string is a `ValueError`. -/
def charsToNat? : List Char → Option Nat
  | [] => none
  | c :: rest => charsToNatAux (c :: rest) 0

/-- `s.split(sep)` for a single-character separator (all separators used
by the module — `"."`, `"-"`, `"_"` — are single characters). -/
def splitOnCharAux (sep : Char) : List Char → List Char → List (List Char)
  | [], acc => [acc.reverse]
  | c :: rest, acc =>
    if c = sep then acc.reverse :: splitOnCharAux sep rest []
    else splitOnCharAux sep rest (c :: acc)

def splitOnChar (sep : Char) (s : List Char) : List (List Char) :=
  splitOnCharAux sep s []

/-- `int(s[:4])`: Python raises `ValueError` on a malformed literal. -/
def parseInt4 (s : List Char) : Except PyErr Nat :=
  match charsToNat? (s.take 4) with
  | some n => .ok n
  | none => .error (.valueError "invalid literal for int with base 10")

/-- Lines 392-394: strip the extension, split the `start-end` token and
take the two 4-digit years.  `split("-")[1]` raises `IndexError` when the
token has no dash; the first year is parsed before that subscript is
evaluated, as in the source. -/
def parseYears (time_range0 : String) : Except PyErr (Nat × Nat) := do
  let time_range := (splitOnChar '.' time_range0.data).headD []
  let parts := splitOnChar '-' time_range
  let s_year ← parseInt4 (parts.headD [])
  let p1 ← match parts.drop 1 with
    | [] => Except.error PyErr.indexError
    | x :: _ => Except.ok x
  let e_year ← parseInt4 p1
  pure (s_year, e_year)

/-- `pd.date_range(str(s_year), str(e_year), freq="AS")` (line 395):
the year-start timestamps of every year from `s_year` to `e_year`
inclusive, empty when `s_year > e_year`. -/
def dateRangeYears (s_year e_year : Nat) : List Nat :=
  if s_year ≤ e_year then (List.range (e_year - s_year + 1)).map (fun i => s_year + i)
  else []

/-- Lines 396-401: the filter answers true when the range collapses to a
single requested year, or when any of the annually stepped years is
requested. -/
def includeYears (s_year e_year : Nat) (years : List Nat) : Bool :=
  if s_year == e_year && years.contains e_year then true
  else if (dateRangeYears s_year e_year).any (fun y => years.contains y) then true
  else false

/-- `_year_in_file(time_range, years)`. -/
def _year_in_file (time_range : String) (years : List Nat) : Except PyErr Bool := do
  let (s_year, e_year) ← parseYears time_range
  pure (includeYears s_year e_year years)

/- ## Catalog resolution and retrieval (lines 46-56, 404-431) -/

/-- Observable steps of a retrieval, for temporal claims: lock
acquisition/release, a catalog search with the query parameters it was
given, and the opening of a filtered file list. -/
inductive Event where
  | acquire
  | release
  | search (params : StrMap)
  | openFiles (files : List String)
  deriving Repr, DecidableEq

/-- External collaborators: the ESGF search service (`hits` is the
context hit count, `files` the `opendap_url` list of the first matching
record), `xarray.open_mfdataset`, and the numpy kernels for square root
and logarithm on the collapsed grid values. -/
structure Env where
  hits : StrMap → Nat
  files : StrMap → List String
  openMf : List String → Except PyErr Dataset
  sqrtQ : ℚ → ℚ
  logQ : ℚ → ℚ

/-- `search_ESGF` (lines 46-56): query with the given parameters; on zero
hits retry once with `frequency` suffixed by `"Pt"`; on zero hits again
raise `ValueError`. -/
def search_ESGF (env : Env) (esgf_params : StrMap) : Except PyErr (List String) :=
  if env.hits esgf_params ≠ 0 then .ok (env.files esgf_params)
  else
    match List.lookup "frequency" esgf_params with
    | none => .error (.keyError "frequency")
    | some f =>
      let params2 := dictSet esgf_params "frequency" (f ++ "Pt")
      if env.hits params2 ≠ 0 then .ok (env.files params2)
      else .error (.valueError "No results found in the ESGF_database")

/-- `f.opendap_url.split("_")[-1]`. -/
def lastSegment (url : String) : String := ⟨(splitOnChar '_' url.data).getLastD []⟩

/-- The locator filter of line 417-421: keep the files whose trailing
date-range token covers a requested year; an exception from
`_year_in_file` aborts the comprehension. -/
def filterFiles (urls : List String) (years : List Nat) : Except PyErr (List String) :=
  match urls with
  | [] => .ok []
  | u :: rest => do
    let b ← _year_in_file (lastSegment u) years
    let tail ← filterFiles rest years
    if b then pure (u :: tail) else pure tail

/-- The per-variable loop of `retrieve_data` (lines 414-427): set
`esgf_params["variable"]`, search, filter by year, open.  Returns the
opened datasets in order together with the final (mutated) parameter
dict, and the trace of search/open events. -/
def retrieveLoop (env : Env) (params : StrMap) (years : List Nat) :
    List String → (Except PyErr (List Dataset × StrMap)) × List Event
  | [] => (.ok ([], params), [])
  | v :: rest =>
    let params1 := dictSet params "variable" v
    match search_ESGF env params1 with
    | .error e => (.error e, [.search params1])
    | .ok urls =>
      match filterFiles urls years with
      | .error e => (.error e, [.search params1])
      | .ok fs =>
        match env.openMf fs with
        | .error e => (.error e, [.search params1, .openFiles fs])
        | .ok d =>
          match retrieveLoop env params1 years rest with
          | (.error e, evs) => (.error e, .search params1 :: .openFiles fs :: evs)
          | (.ok (dsets, pfinal), evs) =>
            (.ok (d :: dsets, pfinal), .search params1 :: .openFiles fs :: evs)

/-- `retrieve_data` (lines 404-431).  The `with lock:` block wraps the
whole per-variable loop: when a lock is supplied it is acquired before
the first variable and released after the last one, or on the exception
path; the merge of the per-variable datasets and the attribute copy
happen after release.  `chunks` and `tmpdir` only affect storage and are
omitted. -/
def retrieve_data (env : Env) (esgf_params : StrMap) (years : List Nat)
    (varRequest : List String) (lock : Bool) :
    (Except PyErr (Dataset × StrMap)) × List Event :=
  match retrieveLoop env esgf_params years varRequest with
  | (.error e, evs) =>
    (.error e, if lock then Event.acquire :: (evs ++ [Event.release]) else evs)
  | (.ok (dsets, pfinal), evs) =>
    let ds := mergeDatasets dsets
    let ds := { ds with attrs := ⟨pfinal, []⟩ }
    (.ok (ds, pfinal), if lock then Event.acquire :: (evs ++ [Event.release]) else evs)

/-- `_rename_and_fix_coords` (lines 434-463) on the value model: wrap and
sort the longitude axis.  The renaming of `lon`/`lat` to `x`/`y`, the
axis-orientation fixup and the calendar harmonization act on coordinate
metadata handled by external collaborators and are the identity here. -/
def _rename_and_fix_coords (ds : Dataset) : Dataset :=
  { ds with lon := fixLon ds.lon }

/- ## The hypsometric recurrence (lines 208-218) -/

/-- The level-by-level geopotential-height accumulation of
`get_data_wind`: `z 0 = -(Rd/g) * tv 0 * log (p 0 / ps)` and
`z (k+1) = z k - (Rd/g) * 0.5 * (tv (k+1) + tv k) * log (p (k+1) / p k)`
(the literal `0.5` is written `1/2`).  Generic in the scalar field so
that the wind calculator instantiates it on the collapsed rational grid
values with the environment's `log`, while the monotonicity claim is
proved over `ℝ` with the real logarithm. -/
def hypsoZrec {V : Type} [Field V] (lg : V → V) (Rd g : V) (tv p : Nat → V) (ps : V) :
    Nat → V
  | 0 => -(Rd / g) * tv 0 * lg (p 0 / ps)
  | k + 1 => hypsoZrec lg Rd g tv p ps k
      - (Rd / g) * (1 / 2) * (tv (k + 1) + tv k) * lg (p (k + 1) / p k)

/- ## Feature calculators (lines 59-382) -/

/-- The parameter sub-dict of `get_data_influx` (lines 61-67): fresh dict
built from the cutout's parameters, with `frequency` taken from the
feature-specific `frequency_solar` key.  A missing key raises
`KeyError`. -/
def subParamsInflux (all : StrMap) : Except PyErr StrMap := do
  let sid ← dictGetE all "source_id"
  let vl ← dictGetE all "variant_label"
  let ex ← dictGetE all "experiment_id"
  let pr ← dictGetE all "project"
  let fr ← dictGetE all "frequency_solar"
  pure [("source_id", sid), ("variant_label", vl), ("experiment_id", ex),
        ("project", pr), ("frequency", fr)]

/-- `sanitize_inflow` (lines 112-115): clip the influx variable to a
lower bound of 0.0.  `ds["influx"]` raises `KeyError` when absent. -/
def sanitize_inflow (ds : Dataset) : Except PyErr Dataset :=
  match List.lookup "influx" ds.data_vars with
  | some v => .ok (ds.setVar "influx" (v.map (fun x => max x 0)))
  | none => .error (.keyError "influx")

/-- `get_data_influx` (lines 59-109): retrieve `rsds` and `rsus` with two
separate `retrieve_data` calls on the same parameter dict, normalize each,
slice to the cutout window/box (identity on the value model), combine,
prune to `rsds`/`rsus`, rename to `influx`/`outflux`, and attach the
popped parameter dict plus the variable list as attributes. -/
def get_data_influx (env : Env) (esgf_params_all : StrMap) (years : List Nat)
    (lock : Bool) : (Except PyErr Dataset) × List Event :=
  match subParamsInflux esgf_params_all with
  | .error e => (.error e, [])
  | .ok esgf_params =>
    match retrieve_data env esgf_params years ["rsds"] lock with
    | (.error e, ev1) => (.error e, ev1)
    | (.ok (drsds, p1), ev1) =>
      let rsds := _rename_and_fix_coords drsds
      match retrieve_data env p1 years ["rsus"] lock with
      | (.error e, ev2) => (.error e, ev1 ++ ev2)
      | (.ok (drsus, p2), ev2) =>
        let rsus := _rename_and_fix_coords drsus
        let evs := ev1 ++ ev2
        let ds := rsds
        match rsus.getVarA "rsus" with
        | .error e => (.error e, evs)
        | .ok rsusVals =>
          let ds := ds.setVar "rsus" rsusVals
          let ds := ds.keepVars ["rsds", "rsus"]
          match ds.renameVarE "rsds" "influx" with
          | .error e => (.error e, evs)
          | .ok ds =>
            match ds.renameVarE "rsus" "outflux" with
            | .error e => (.error e, evs)
            | .ok ds =>
              match dictPopE p2 "variable" with
              | .error e => (.error e, evs)
              | .ok attrParams =>
                (.ok { ds with attrs := ⟨attrParams, ["influx", "outflux"]⟩ }, evs)

/-- The parameter sub-dict of `get_data_surface` (lines 257-263), with
`frequency` from `frequency_temp`. -/
def subParamsSurface (all : StrMap) : Except PyErr StrMap := do
  let sid ← dictGetE all "source_id"
  let vl ← dictGetE all "variant_label"
  let ex ← dictGetE all "experiment_id"
  let pr ← dictGetE all "project"
  let fr ← dictGetE all "frequency_temp"
  pure [("source_id", sid), ("variant_label", vl), ("experiment_id", ex),
        ("project", pr), ("frequency", fr)]

/-- `get_data_surface` (lines 254-321): retrieve `tas`, `huss`, `ps`
with three `retrieve_data` calls, rename/assemble into
temperature/humidity/pressure, drop the `height` reference coordinate,
prune and attach attributes. -/
def get_data_surface (env : Env) (esgf_params_all : StrMap) (years : List Nat)
    (lock : Bool) : (Except PyErr Dataset) × List Event :=
  match subParamsSurface esgf_params_all with
  | .error e => (.error e, [])
  | .ok esgf_params =>
    match retrieve_data env esgf_params years ["tas"] lock with
    | (.error e, ev1) => (.error e, ev1)
    | (.ok (dtas, p1), ev1) =>
      let tas := _rename_and_fix_coords dtas
      match retrieve_data env p1 years ["huss"] lock with
      | (.error e, ev2) => (.error e, ev1 ++ ev2)
      | (.ok (dqs, p2), ev2) =>
        let qs := _rename_and_fix_coords dqs
        match retrieve_data env p2 years ["ps"] lock with
        | (.error e, ev3) => (.error e, ev1 ++ ev2 ++ ev3)
        | (.ok (dps, p3), ev3) =>
          let ps := _rename_and_fix_coords dps
          let evs := ev1 ++ ev2 ++ ev3
          match (tas.renameVarE "tas" "temperature") with
          | .error e => (.error e, evs)
          | .ok ds =>
            match tas.getVarA "tas" with
            | .error e => (.error e, evs)
            | .ok tasVals =>
              let ds := ds.setVar "temperature" tasVals
              match ps.getVarA "ps" with
              | .error e => (.error e, evs)
              | .ok psVals =>
                let ds := ds.setVar "pressure" psVals
                match qs.getVarA "huss" with
                | .error e => (.error e, evs)
                | .ok qsVals =>
                  let ds := ds.setVar "humidity" qsVals
                  match ds.dropVarE "height" with
                  | .error e => (.error e, evs)
                  | .ok ds =>
                    let ds := ds.keepVars ["temperature", "humidity", "pressure"]
                    match dictPopE p3 "variable" with
                    | .error e => (.error e, evs)
                    | .ok attrParams =>
                      (.ok { ds with attrs :=
                          ⟨attrParams, ["temperature", "humidity", "pressure"]⟩ }, evs)

/-- The parameter sub-dict of `get_data_wind10m` (lines 327-333), with
`frequency` from `frequency_wnd10m`. -/
def subParamsWind10m (all : StrMap) : Except PyErr StrMap := do
  let sid ← dictGetE all "source_id"
  let vl ← dictGetE all "variant_label"
  let ex ← dictGetE all "experiment_id"
  let pr ← dictGetE all "project"
  let fr ← dictGetE all "frequency_wnd10m"
  pure [("source_id", sid), ("variant_label", vl), ("experiment_id", ex),
        ("project", pr), ("frequency", fr)]

/-- `get_data_wind10m` (lines 324-382): retrieve `uas` and `vas`, compute
the 10 m wind speed, rename/assemble, drop `height`, prune and attach
attributes. -/
def get_data_wind10m (env : Env) (esgf_params_all : StrMap) (years : List Nat)
    (lock : Bool) : (Except PyErr Dataset) × List Event :=
  match subParamsWind10m esgf_params_all with
  | .error e => (.error e, [])
  | .ok esgf_params =>
    match retrieve_data env esgf_params years ["uas"] lock with
    | (.error e, ev1) => (.error e, ev1)
    | (.ok (duas, p1), ev1) =>
      let uas := _rename_and_fix_coords duas
      match retrieve_data env p1 years ["vas"] lock with
      | (.error e, ev2) => (.error e, ev1 ++ ev2)
      | (.ok (dvas, p2), ev2) =>
        let vas := _rename_and_fix_coords dvas
        let evs := ev1 ++ ev2
        match uas.getVarA "uas" with
        | .error e => (.error e, evs)
        | .ok uasVals =>
          match vas.getVarA "vas" with
          | .error e => (.error e, evs)
          | .ok vasVals =>
            let wnd10m := List.zipWith (fun x y => env.sqrtQ (x * x + y * y)) uasVals vasVals
            match uas.renameVarE "uas" "ua10m" with
            | .error e => (.error e, evs)
            | .ok ds =>
              let ds := ds.setVar "va10m" vasVals
              let ds := ds.setVar "wnd10m" wnd10m
              match ds.dropVarE "height" with
              | .error e => (.error e, evs)
              | .ok ds =>
                let ds := ds.keepVars ["va10m", "ua10m", "wnd10m"]
                match dictPopE p2 "variable" with
                | .error e => (.error e, evs)
                | .ok attrParams =>
                  (.ok { ds with attrs := ⟨attrParams, ["ua10m", "va10m", "wnd10m"]⟩ }, evs)

/-- The parameter sub-dict of `get_data_wind` (lines 120-127): includes
`table_id` from `table_id_wind`, and `frequency` from `frequency_wind`. -/
def subParamsWind (all : StrMap) : Except PyErr StrMap := do
  let sid ← dictGetE all "source_id"
  let vl ← dictGetE all "variant_label"
  let ex ← dictGetE all "experiment_id"
  let pr ← dictGetE all "project"
  let fr ← dictGetE all "frequency_wind"
  let tb ← dictGetE all "table_id_wind"
  pure [("source_id", sid), ("variant_label", vl), ("experiment_id", ex),
        ("project", pr), ("frequency", fr), ("table_id", tb)]

/-- Result of the vertical-coordinate branch of `get_data_wind` (lines
170-227): the height profile, the local variables `t`, `q`, `p` when the
hybrid branch assigned them (`none` models a Python local that was never
bound), and the parameter dict after any further retrievals. -/
structure WindVert where
  z : List ℚ
  taOpt : Option (List ℚ)
  husOpt : Option (List ℚ)
  paOpt : Option (List ℚ)
  pFinal : StrMap
  deriving Repr, DecidableEq

/-- Lines 170-227 of `get_data_wind`.  Hybrid/model-level regime (surface
pressure present on the wind dataset): retrieve `ta` and `hus`, compute
virtual temperature with ε = 0.62198, full-level pressure
`p = ap + b·ps` (with `ap = a·p0` when a reference pressure is present),
and integrate height with the hypsometric recurrence from level 0
upward.  Pressure-level regime: `z = lev + (b - 1)·orog`, levels
independent; the locals `t`, `q`, `p` stay unbound. -/
def windVertical (env : Env) (u : Dataset) (p2 : StrMap) (years : List Nat)
    (lock : Bool) (a b : ℚ) (hasPS : Bool) :
    (Except PyErr WindVert) × List Event :=
  if hasPS then
    match retrieve_data env p2 years ["ta"] lock with
    | (.error e, ev3) => (.error e, ev3)
    | (.ok (dt, p3), ev3) =>
      let t := (_rename_and_fix_coords dt).selLev a b
      match retrieve_data env p3 years ["hus"] lock with
      | (.error e, ev4) => (.error e, ev3 ++ ev4)
      | (.ok (dq, p4), ev4) =>
        let q := (_rename_and_fix_coords dq).selLev a b
        let evs := ev3 ++ ev4
        match t.getVarA "ta" with
        | .error e => (.error e, evs)
        | .ok taV =>
          match q.getVarA "hus" with
          | .error e => (.error e, evs)
          | .ok husV =>
            let eps : ℚ := 0.62198
            let tv := List.zipWith (fun ta hus => ta * ((hus + eps) / (eps * (1 + hus)))) taV husV
            match u.getVarA "b" with
            | .error e => (.error e, evs)
            | .ok bV =>
              match t.getVarA "ps" with
              | .error e => (.error e, evs)
              | .ok psV =>
                let apE : Except PyErr (List ℚ) :=
                  if u.hasVar "p0" then
                    match u.getVarA "a" with
                    | .error e => .error e
                    | .ok aV =>
                      match u.getVarA "p0" with
                      | .error e => .error e
                      | .ok p0V => .ok (List.zipWith (fun x y => x * y) aV p0V)
                  else u.getVarA "ap"
                match apE with
                | .error e => (.error e, evs)
                | .ok apV =>
                  let psc := psV.headD 0
                  let p := List.zipWith (fun apk bk => apk + bk * psc) apV bV
                  let Rd : ℚ := 287.058
                  let g : ℚ := 9.80665
                  let z := (List.range p.length).map
                    (hypsoZrec env.logQ Rd g (fun i => tv.getD i 0) (fun i => p.getD i 0) psc)
                  (.ok ⟨z, some taV, some husV, some p, p4⟩, evs)
  else
    match u.getVarA "b" with
    | .error e => (.error e, [])
    | .ok bV =>
      match u.getVarA "orog" with
      | .error e => (.error e, [])
      | .ok orogV =>
        let z := List.zipWith (fun lv bo => lv + bo) u.lev
                   (List.zipWith (fun bk ok => (bk - 1) * ok) bV orogV)
        (.ok ⟨z, none, none, none, p2⟩, [])

/-- `get_data_wind` (lines 118-251): retrieve the two wind components,
pick the level window by regime (`slice(1.0, 0.9)` with surface pressure,
`slice(50, 200)` without), compute the wind speed, run the vertical
branch, and assemble the feature dataset.  The assignments of lines
233-235 read the locals `t`, `q`, `p`, which in the pressure-level regime
were never bound: Python raises `UnboundLocalError` there. -/
def get_data_wind (env : Env) (esgf_params_all : StrMap) (years : List Nat)
    (lock : Bool) : (Except PyErr Dataset) × List Event :=
  match subParamsWind esgf_params_all with
  | .error e => (.error e, [])
  | .ok esgf_params =>
    match retrieve_data env esgf_params years ["ua"] lock with
    | (.error e, ev1) => (.error e, ev1)
    | (.ok (du, p1), ev1) =>
      let u0 := _rename_and_fix_coords du
      match retrieve_data env p1 years ["va"] lock with
      | (.error e, ev2) => (.error e, ev1 ++ ev2)
      | (.ok (dv, p2), ev2) =>
        let v0 := _rename_and_fix_coords dv
        let hasPS := u0.hasVar "ps"
        let a : ℚ := if hasPS then 1.0 else 50
        let b : ℚ := if hasPS then 0.9 else 200
        let u := u0.selLev a b
        let v := v0.selLev a b
        let ev12 := ev1 ++ ev2
        match u.getVarA "ua" with
        | .error e => (.error e, ev12)
        | .ok uaV =>
          match v.getVarA "va" with
          | .error e => (.error e, ev12)
          | .ok vaV =>
            let wspd := List.zipWith (fun x y => env.sqrtQ (x * x + y * y)) uaV vaV
            match windVertical env u p2 years lock a b hasPS with
            | (.error e, evV) => (.error e, ev12 ++ evV)
            | (.ok w, evV) =>
              let evs := ev12 ++ evV
              let ds := u
              let ds := ds.setVar "wnd" wspd
              let ds := ds.setVar "z" w.z
              let ds := ds.setVar "va" vaV
              match w.taOpt with
              | none => (.error (.unboundLocal "t"), evs)
              | some taV =>
                let ds := ds.setVar "ta" taV
                match w.husOpt with
                | none => (.error (.unboundLocal "q"), evs)
                | some husV =>
                  let ds := ds.setVar "hus" husV
                  match w.paOpt with
                  | none => (.error (.unboundLocal "p"), evs)
                  | some paV =>
                    let ds := ds.setVar "pa" paV
                    let ds := ds.keepVars ["ua", "va", "wnd", "z", "ta", "hus", "pa"]
                    match dictPopE w.pFinal "variable" with
                    | .error e => (.error e, evs)
                    | .ok attrParams =>
                      (.ok { ds with attrs :=
                          ⟨attrParams,
                           ["wind speed lvl", "z", "ua", "va", "ta", "hus", "pa"]⟩ }, evs)

/- ## Feature dispatcher (`get_data`, lines 466-525) -/

/-- The module-level functions reachable through the dynamic name lookup
`globals().get(...)` of `get_data`: the four calculators and the
sanitizer — which is spelled `sanitize_inflow` in the source, not
`sanitize_influx`. -/
inductive GlobalFn where
  | gdInflux
  | gdWind
  | gdSurface
  | gdWind10m
  | sanInflow
  deriving Repr, DecidableEq

/-- `globals().get(name)` restricted to the names `get_data` ever looks
up (`get_data_*` and `sanitize_*`); every other module global has a name
outside those shapes. -/
def globalsGet (name : String) : Option GlobalFn :=
  if name = "get_data_influx" then some .gdInflux
  else if name = "get_data_wind" then some .gdWind
  else if name = "get_data_surface" then some .gdSurface
  else if name = "get_data_wind10m" then some .gdWind10m
  else if name = "sanitize_inflow" then some .sanInflow
  else none

/-- The cutout collaborator: its query parameters (possibly absent), its
nominal time-step code `dt`, and the requested years of its time axis. -/
structure Cutout where
  esgf_params : Option StrMap
  dt : String
  years : List Nat
  deriving Repr, DecidableEq

/-- The cadence-code table of `get_data` (lines 494-507): unrecognized
codes raise `ValueError`. -/
def cadenceFreq (dt : String) : Except PyErr String :=
  if dt = "H" then .ok "h"
  else if dt = "3H" then .ok "3hr"
  else if dt = "6H" then .ok "6hr"
  else if dt = "D" then .ok "day"
  else if dt = "M" then .ok "mon"
  else if dt = "Y" then .ok "year"
  else .error (.valueError (dt ++ " not valid time frequency in CMIP"))

/-- Invoke the module function found by the calculator lookup with the
calculator calling convention; calling the sanitizer that way is a
`TypeError` (it takes one positional argument). -/
def callCalculator (env : Env) (fn : GlobalFn) (esgf_params : StrMap)
    (years : List Nat) (lock : Bool) : (Except PyErr Dataset) × List Event :=
  match fn with
  | .gdInflux => get_data_influx env esgf_params years lock
  | .gdWind => get_data_wind env esgf_params years lock
  | .gdSurface => get_data_surface env esgf_params years lock
  | .gdWind10m => get_data_wind10m env esgf_params years lock
  | .sanInflow => (.error (.typeError "sanitize_inflow got unexpected keyword arguments"), [])

/-- Invoke the module function found by the sanitizer lookup with one
dataset argument; calling a calculator that way is a `TypeError`. -/
def applySanitizer (fn : GlobalFn) (ds : Dataset) : Except PyErr Dataset :=
  match fn with
  | .sanInflow => sanitize_inflow ds
  | _ => .error (.typeError "missing required positional arguments")

instance {ε α : Type} [DecidableEq ε] [DecidableEq α] : DecidableEq (Except ε α) := fun a b =>
  match a, b with
  | .ok x, .ok y =>
    if h : x = y then isTrue (congrArg Except.ok h)
    else isFalse (fun hc => h (Except.ok.inj hc))
  | .error x, .error y =>
    if h : x = y then isTrue (congrArg Except.error h)
    else isFalse (fun hc => h (Except.error.inj hc))
  | .ok _, .error _ => isFalse (fun hc => Except.noConfusion hc)
  | .error _, .ok _ => isFalse (fun hc => Except.noConfusion hc)

/-- Outcome of a `get_data` call: the returned dataset or the exception,
the cutout after the call (its parameter dict is mutated in place by the
source), and the retrieval event trace. -/
structure GetDataResult where
  result : Except PyErr Dataset
  cutout : Cutout
  trace : List Event
  deriving Repr, DecidableEq

/-- `get_data` (lines 466-525): validate the presence of query
parameters, default `frequency` from the cadence table when the
parameters do not carry one, write it back into the cutout's parameter
dict, look up `get_data_<feature>` in the module globals (`None` →
`TypeError` on call), invoke it, and apply `sanitize_<feature>` when such
a global exists and sanitation was not disabled. -/
def get_data (env : Env) (cutout : Cutout) (feature : String) (lock : Bool)
    (sanitizeArg : Option Bool) : GetDataResult :=
  let sanitize := sanitizeArg.getD true
  match cutout.esgf_params with
  | none => ⟨.error (.valueError "ESGF search parameters not provided"), cutout, []⟩
  | some esgf_params0 =>
    let freqE : Except PyErr String :=
      match List.lookup "frequency" esgf_params0 with
      | none => cadenceFreq cutout.dt
      | some f => .ok f
    match freqE with
    | .error e => ⟨.error e, cutout, []⟩
    | .ok freq =>
      let esgf_params := dictSet esgf_params0 "frequency" freq
      let cutout1 := { cutout with esgf_params := some esgf_params }
      match globalsGet ("get_data_" ++ feature) with
      | none => ⟨.error (.typeError "NoneType object is not callable"), cutout1, []⟩
      | some fn =>
        match callCalculator env fn esgf_params cutout.years lock with
        | (.error e, evs) => ⟨.error e, cutout1, evs⟩
        | (.ok ds, evs) =>
          match globalsGet ("sanitize_" ++ feature) with
          | some sfn =>
            if sanitize then
              match applySanitizer sfn ds with
              | .ok ds2 => ⟨.ok ds2, cutout1, evs⟩
              | .error e => ⟨.error e, cutout1, evs⟩
            else ⟨.ok ds, cutout1, evs⟩
          | none => ⟨.ok ds, cutout1, evs⟩

/-- Does the first character list occur at the start of the second? -/
def startsWithB : List Char → List Char → Bool
  | [], _ => true
  | _ :: _, [] => false
  | a :: as, b :: bs => a == b && startsWithB as bs

/-- Does the first character list occur contiguously anywhere in the
second?  Used to state whether an error message mentions a name. -/
def containsSeqB (needle : List Char) : List Char → Bool
  | [] => startsWithB needle []
  | b :: bs => startsWithB needle (b :: bs) || containsSeqB needle bs

/-! ## Library lemmas about the embedded operations -/

theorem dictSet_lookup_self (m : StrMap) (k v : String) :
    List.lookup k (dictSet m k v) = some v := by
  induction m with
  | nil => simp [dictSet, List.lookup]
  | cons hd tl ih =>
    obtain ⟨k', v'⟩ := hd
    by_cases h : k' = k
    · simp [dictSet, h, List.lookup]
    · have hne : (k == k') = false := beq_eq_false_iff_ne.mpr (Ne.symm h)
      simp [dictSet, h, List.lookup, hne, ih]

theorem dictSet_lookup_ne (m : StrMap) (k v k' : String) (h : k' ≠ k) :
    List.lookup k' (dictSet m k v) = List.lookup k' m := by
  induction m with
  | nil => simp [dictSet, List.lookup, beq_eq_false_iff_ne.mpr h]
  | cons hd tl ih =>
    obtain ⟨k0, v0⟩ := hd
    by_cases h0 : k0 = k
    · subst h0
      simp [dictSet, List.lookup, beq_eq_false_iff_ne.mpr h]
    · simp only [dictSet, if_neg h0, List.lookup]
      by_cases h1 : k' = k0
      · simp [h1]
      · simp [beq_eq_false_iff_ne.mpr h1, ih]

theorem dictPopE_dictSet_fresh (m : StrMap) (k v : String)
    (h : List.lookup k m = none) : dictPopE (dictSet m k v) k = .ok m := by
  induction m with
  | nil => simp [dictSet, dictPopE]
  | cons hd tl ih =>
    obtain ⟨k0, v0⟩ := hd
    simp only [List.lookup] at h
    by_cases h0 : k = k0
    · simp [h0, beq_iff_eq] at h
    · have h0' : (k == k0) = false := by simp [beq_iff_eq, h0]
      rw [h0'] at h
      simp only [dictSet, if_neg (Ne.symm h0), dictPopE, if_neg h0, ih h]

theorem pymod_nonneg (x m : ℚ) (hm : 0 < m) : 0 ≤ pymod x m := by
  have h := Int.floor_le (x / m)
  have : (⌊x / m⌋ : ℚ) * m ≤ x / m * m := by
    exact mul_le_mul_of_nonneg_right h (le_of_lt hm)
  rw [div_mul_cancel₀ x (ne_of_gt hm)] at this
  unfold pymod
  linarith [this]

theorem pymod_lt (x m : ℚ) (hm : 0 < m) : pymod x m < m := by
  have h := Int.lt_floor_add_one (x / m)
  have : x / m * m < ((⌊x / m⌋ : ℚ) + 1) * m := by
    exact mul_lt_mul_of_pos_right h hm
  rw [div_mul_cancel₀ x (ne_of_gt hm)] at this
  unfold pymod
  nlinarith [this]

theorem pymod_eq_self (x m : ℚ) (hm : 0 < m) (h0 : 0 ≤ x) (h1 : x < m) :
    pymod x m = x := by
  have hfl : ⌊x / m⌋ = 0 := by
    rw [Int.floor_eq_zero_iff]
    constructor
    · exact div_nonneg h0 (le_of_lt hm)
    · rw [div_lt_one hm]; exact h1
  unfold pymod
  rw [hfl]
  push_cast
  ring

theorem wrapLon_mem_Ico (l : ℚ) : -180 ≤ wrapLon l ∧ wrapLon l < 180 := by
  unfold wrapLon
  constructor
  · have := pymod_nonneg (l + 180) 360 (by norm_num)
    linarith
  · have := pymod_lt (l + 180) 360 (by norm_num)
    linarith

theorem wrapLon_eq_self (l : ℚ) (h0 : -180 ≤ l) (h1 : l < 180) : wrapLon l = l := by
  unfold wrapLon
  rw [pymod_eq_self (l + 180) 360 (by norm_num) (by linarith) (by linarith)]
  ring

theorem wrapLon_idem (l : ℚ) : wrapLon (wrapLon l) = wrapLon l := by
  obtain ⟨h0, h1⟩ := wrapLon_mem_Ico l
  exact wrapLon_eq_self _ h0 h1

theorem fixLon_idem (ls : List ℚ) : fixLon (fixLon ls) = fixLon ls := by
  unfold fixLon sortLon
  have hmap : (List.insertionSort (· ≤ ·) (ls.map wrapLon)).map wrapLon
      = List.insertionSort (· ≤ ·) (ls.map wrapLon) := by
    have hcong : (List.insertionSort (· ≤ ·) (ls.map wrapLon)).map wrapLon
        = (List.insertionSort (· ≤ ·) (ls.map wrapLon)).map id := by
      apply List.map_congr_left
      intro x hx
      have hx' : x ∈ ls.map wrapLon := (List.mem_insertionSort _).1 hx
      obtain ⟨y, _, rfl⟩ := List.mem_map.1 hx'
      simpa using wrapLon_idem y
    rw [hcong, List.map_id]
  rw [hmap]
  exact List.Sorted.insertionSort_eq (List.sorted_insertionSort _ _)

theorem fixLon_mem_Ico (ls : List ℚ) (x : ℚ) (hx : x ∈ fixLon ls) :
    -180 ≤ x ∧ x < 180 := by
  unfold fixLon sortLon at hx
  have hx' : x ∈ ls.map wrapLon := (List.mem_insertionSort _).1 hx
  obtain ⟨y, _, rfl⟩ := List.mem_map.1 hx'
  exact wrapLon_mem_Ico y

theorem fixLon_sorted (ls : List ℚ) : List.Sorted (· ≤ ·) (fixLon ls) :=
  List.sorted_insertionSort _ _

theorem fixLon_sorted_lt (ls : List ℚ) (h : (ls.map wrapLon).Nodup) :
    List.Sorted (· < ·) (fixLon ls) := by
  have hs : List.Sorted (· ≤ ·) (fixLon ls) := fixLon_sorted ls
  have hnd : (fixLon ls).Nodup := by
    unfold fixLon sortLon
    exact (List.perm_insertionSort _ _).nodup_iff.2 h
  exact List.Pairwise.imp₂ (fun a b hab hne => lt_of_le_of_ne hab hne) hs hnd

/-! ## Concrete test fixtures

A small environment whose archive answers every search with one file
covering 1999 and whose opened dataset carries every variable any
calculator reads.  Value lists are empty except for the radiation pair,
whose values exercise the sanitation claim. -/

def dsRawAll : Dataset :=
  ⟨[("rsds", [-5]), ("rsus", [2]), ("tas", []), ("huss", []), ("ps", []),
    ("uas", []), ("vas", []), ("ua", []), ("va", []), ("ta", []), ("hus", []),
    ("b", []), ("ap", []), ("height", [])], [], [], ⟨[], []⟩⟩

def envAll : Env :=
  { hits := fun _ => 1
    files := fun _ => ["x_19990101-19991231.nc"]
    openMf := fun _ => .ok dsRawAll
    sqrtQ := fun x => x
    logQ := fun x => x }

/-- A wind dataset without a surface-pressure variable: the opened `ua`
and `va` files carry only the components and the orography/hybrid
coefficient, putting `get_data_wind` in the pressure-level regime. -/
def dsRawNoPS : Dataset :=
  ⟨[("ua", []), ("va", []), ("b", []), ("orog", [])], [], [], ⟨[], []⟩⟩

def envNoPS : Env := { envAll with openMf := fun _ => .ok dsRawNoPS }

/-- A cutout with hourly time step, one requested year and query
parameters carrying all the feature-specific frequency keys but no
`frequency` key. -/
def cutout0 : Cutout :=
  ⟨some [("source_id", "CMCC"), ("variant_label", "r1"), ("experiment_id", "ssp2"),
         ("project", "CMIP6"), ("frequency_solar", "day"), ("frequency_wind", "6hr"),
         ("table_id_wind", "6hrLev"), ("frequency_temp", "day"), ("frequency_wnd10m", "day")],
   "H", [1999]⟩

/-- The dataset `get_data` returns for the influx feature under
`envAll`/`cutout0`. -/
def dsInfluxOut : Dataset :=
  ⟨[("influx", [-5]), ("outflux", [2])], [], [],
   ⟨[("source_id", "CMCC"), ("variant_label", "r1"), ("experiment_id", "ssp2"),
     ("project", "CMIP6"), ("frequency", "day")], ["influx", "outflux"]⟩⟩

theorem wrapLon_shift (l : ℚ) (n : ℤ) : wrapLon (l + 360 * n) = wrapLon l := by
  unfold wrapLon pymod
  have hdiv : (l + 360 * (n : ℚ) + 180) / 360 = (l + 180) / 360 + (n : ℚ) := by
    field_simp
    ring
  rw [show l + 360 * (n : ℚ) + 180 = l + 360 * (n : ℚ) + 180 from rfl, hdiv,
      Int.floor_add_int]
  push_cast
  ring

theorem wrapLon_360_eq : wrapLon 360 = 0 := by
  have h := wrapLon_shift 0 1
  have h0 : wrapLon 0 = 0 := wrapLon_eq_self 0 (by norm_num) (by norm_num)
  have h1 : (0 : ℚ) + 360 * ((1 : ℤ) : ℚ) = 360 := by norm_num
  rw [h1] at h
  rw [h, h0]

theorem wrapLon_181_eq : wrapLon 181 = -179 := by
  have h := wrapLon_shift (-179) 1
  have h0 : wrapLon (-179) = -179 := wrapLon_eq_self (-179) (by norm_num) (by norm_num)
  have h1 : (-179 : ℚ) + 360 * ((1 : ℤ) : ℚ) = 181 := by norm_num
  rw [h1] at h
  rw [h, h0]

theorem ifChain_eq_true_iff (A B : Bool) :
    (if A then true else if B then true else false) = true ↔ (A = true ∨ B = true) := by
  cases A <;> cases B <;> simp

theorem mem_dateRangeYears (s e y : Nat) :
    y ∈ dateRangeYears s e ↔ (s ≤ y ∧ y ≤ e) := by
  unfold dateRangeYears
  by_cases hse : s ≤ e
  · simp only [if_pos hse, List.mem_map, List.mem_range]
    constructor
    · rintro ⟨i, hi, rfl⟩
      omega
    · rintro ⟨h1, h2⟩
      exact ⟨y - s, by omega, by omega⟩
  · simp only [if_neg hse, List.not_mem_nil, false_iff]
    omega

theorem includeYears_eq_true_iff (s e : Nat) (years : List Nat) :
    includeYears s e years = true
      ↔ ((s = e ∧ e ∈ years) ∨ ∃ y, s ≤ y ∧ y ≤ e ∧ y ∈ years) := by
  unfold includeYears
  rw [ifChain_eq_true_iff]
  simp only [Bool.and_eq_true, beq_iff_eq, List.elem_iff, List.any_eq_true]
  constructor
  · rintro (⟨h1, h2⟩ | ⟨y, hy, hy2⟩)
    · exact Or.inl ⟨h1, h2⟩
    · obtain ⟨hsy, hye⟩ := (mem_dateRangeYears s e y).1 hy
      exact Or.inr ⟨y, hsy, hye, hy2⟩
  · rintro (⟨h1, h2⟩ | ⟨y, hsy, hye, hy⟩)
    · exact Or.inl ⟨h1, h2⟩
    · exact Or.inr ⟨y, (mem_dateRangeYears s e y).2 ⟨hsy, hye⟩, hy⟩

theorem year_in_file_of_parse (tok : String) (years : List Nat) (s e : Nat)
    (h : parseYears tok = .ok (s, e)) :
    _year_in_file tok years = .ok (includeYears s e years) := by
  unfold _year_in_file
  rw [h]
  rfl

/-! ## Claims -/

/-- C8: the temporal coverage filter, given a locator token
`YYYYMMDD-YYYYMMDD` (parsed to years `s`, `e`) and a set of requested
years, includes the locator iff the range collapses to a single requested
year or some annually stepped year from `s` to `e` is requested; a
locator spanning exactly one requested year is always included, and one
whose year range excludes all requested years is always excluded. -/
theorem C8_year_filter_characterization :
    ∀ (tok : String) (years : List Nat) (s e : Nat),
      parseYears tok = .ok (s, e) →
      ((_year_in_file tok years = .ok true
          ↔ ((s = e ∧ e ∈ years) ∨ ∃ y, s ≤ y ∧ y ≤ e ∧ y ∈ years))
       ∧ (s = e → e ∈ years → _year_in_file tok years = .ok true)
       ∧ ((∀ y ∈ years, y < s ∨ e < y) → _year_in_file tok years = .ok false)) := by
  intro tok years s e h
  have hb := year_in_file_of_parse tok years s e h
  refine ⟨?_, ?_, ?_⟩
  · rw [hb]
    constructor
    · intro hok
      have hinc : includeYears s e years = true := by
        injection hok
      exact (includeYears_eq_true_iff s e years).1 hinc
    · intro hr
      rw [(includeYears_eq_true_iff s e years).2 hr]
  · intro h1 h2
    rw [hb, (includeYears_eq_true_iff s e years).2 (Or.inl ⟨h1, h2⟩)]
  · intro hall
    rw [hb]
    cases hx : includeYears s e years
    · rfl
    · exfalso
      rcases (includeYears_eq_true_iff s e years).1 hx with ⟨h1, h2⟩ | ⟨y, hsy, hye, hy⟩
      · rcases hall e h2 with h | h <;> omega
      · rcases hall y hy with h | h <;> omega

/-- Witness for C8 at the concrete token `19990101-20001231` and the
requested year 2000. -/
theorem C8_year_filter_witness :
    parseYears "19990101-20001231" = .ok (1999, 2000)
    ∧ _year_in_file "19990101-20001231" [2000] = .ok true := by
  refine ⟨by decide, ?_⟩
  exact (C8_year_filter_characterization "19990101-20001231" [2000] 1999 2000
      (by decide)).1.mpr (Or.inr ⟨2000, by decide, by decide, by decide⟩)

/-- C9 counterexample: the longitude fix is not strictly ascending on
every input — the axis `[0, 360]` wraps to `[0, 0]`. -/
theorem C9_strict_ascending_fails :
    fixLon [0, 360] = [0, 0] ∧ ¬ List.Sorted (· < ·) (fixLon [0, 360]) := by
  have h0 : wrapLon 0 = 0 := wrapLon_eq_self 0 (by norm_num) (by norm_num)
  have hmap : List.map wrapLon [0, 360] = [0, 0] := by
    simp [wrapLon_360_eq, h0]
  have hfix : fixLon [0, 360] = [0, 0] := by
    unfold fixLon sortLon
    rw [hmap]
    simp [List.insertionSort, List.orderedInsert]
  refine ⟨hfix, ?_⟩
  rw [hfix]
  simp [List.sorted_cons]

/-- C9 (amended): the longitude normalization is idempotent, its output
lies in [-180, 180) and is sorted non-decreasingly; it is strictly
ascending whenever no two input longitudes wrap to the same value. -/
theorem C9_lon_normalization :
    ∀ ls : List ℚ,
      fixLon (fixLon ls) = fixLon ls
      ∧ (∀ x ∈ fixLon ls, -180 ≤ x ∧ x < 180)
      ∧ List.Sorted (· ≤ ·) (fixLon ls)
      ∧ ((ls.map wrapLon).Nodup → List.Sorted (· < ·) (fixLon ls)) :=
  fun ls => ⟨fixLon_idem ls, fixLon_mem_Ico ls, fixLon_sorted ls, fixLon_sorted_lt ls⟩

/-- Witness for C9 on the axis `[181, 0]`, which wraps injectively to
`[-179, 0]`. -/
theorem C9_lon_normalization_witness :
    fixLon (fixLon [181, 0]) = fixLon [181, 0]
    ∧ List.Sorted (· < ·) (fixLon [181, 0]) := by
  have h0 : wrapLon 0 = 0 := wrapLon_eq_self 0 (by norm_num) (by norm_num)
  have hnd : (List.map wrapLon [181, 0]).Nodup := by
    simp [wrapLon_181_eq, h0]
  exact ⟨(C9_lon_normalization [181, 0]).1, (C9_lon_normalization [181, 0]).2.2.2 hnd⟩

/-- C5: the wind calculator's geopotential height is the sequential
hypsometric recurrence with Rd = 287.058 and g = 9.80665, and on every
input with positive virtual temperature and positive, strictly
decreasing pressure the heights strictly increase with level index. -/
theorem C5_hypsometric_monotone :
    ∀ (klev : Nat) (tv p : Nat → ℝ) (ps : ℝ),
      (∀ k, k < klev → 0 < tv k) →
      (∀ k, k + 1 < klev → p (k + 1) < p k) →
      (∀ k, k < klev → 0 < p k) →
      (hypsoZrec Real.log 287.058 9.80665 tv p ps 0
          = -(287.058 / 9.80665) * tv 0 * Real.log (p 0 / ps))
      ∧ (∀ k, hypsoZrec Real.log 287.058 9.80665 tv p ps (k + 1)
          = hypsoZrec Real.log 287.058 9.80665 tv p ps k
            - (287.058 / 9.80665) * (1 / 2) * (tv (k + 1) + tv k)
              * Real.log (p (k + 1) / p k))
      ∧ (∀ j k, j < k → k < klev →
          hypsoZrec Real.log 287.058 9.80665 tv p ps j
            < hypsoZrec Real.log 287.058 9.80665 tv p ps k) := by
  intro klev tv p ps htv hdec hpos
  have heq0 : hypsoZrec Real.log 287.058 9.80665 tv p ps 0
      = -(287.058 / 9.80665) * tv 0 * Real.log (p 0 / ps) := by
    rw [hypsoZrec]
  have heqS : ∀ k, hypsoZrec Real.log 287.058 9.80665 tv p ps (k + 1)
      = hypsoZrec Real.log 287.058 9.80665 tv p ps k
        - (287.058 / 9.80665) * (1 / 2) * (tv (k + 1) + tv k)
          * Real.log (p (k + 1) / p k) := by
    intro k
    rw [hypsoZrec]
  refine ⟨heq0, heqS, ?_⟩
  have hstep : ∀ k, k + 1 < klev →
      hypsoZrec Real.log 287.058 9.80665 tv p ps k
        < hypsoZrec Real.log 287.058 9.80665 tv p ps (k + 1) := by
    intro k hk
    have hp1 : 0 < p (k + 1) := hpos _ hk
    have hp0 : 0 < p k := hpos _ (by omega)
    have hratio1 : p (k + 1) / p k < 1 := (div_lt_one hp0).2 (hdec k hk)
    have hratio0 : 0 < p (k + 1) / p k := div_pos hp1 hp0
    have hlog : Real.log (p (k + 1) / p k) < 0 := Real.log_neg hratio0 hratio1
    have htvs : 0 < tv (k + 1) + tv k := by
      have h1 := htv (k + 1) hk
      have h2 := htv k (by omega)
      linarith
    have hcoef : (0 : ℝ) < 287.058 / 9.80665 * (1 / 2) * (tv (k + 1) + tv k) := by
      have : (0 : ℝ) < 287.058 / 9.80665 * (1 / 2) := by norm_num
      exact mul_pos this htvs
    have hterm : 287.058 / 9.80665 * (1 / 2) * (tv (k + 1) + tv k)
        * Real.log (p (k + 1) / p k) < 0 := mul_neg_of_pos_of_neg hcoef hlog
    rw [heqS k]
    linarith
  intro j k hjk hk
  induction k with
  | zero => omega
  | succ n ih =>
    rcases Nat.lt_succ_iff_lt_or_eq.1 hjk with h | h
    · exact lt_trans (ih h (by omega)) (hstep n hk)
    · subst h
      exact hstep j hk

/-- Witness for C5: two levels with unit virtual temperature and
pressures 1, 1/2. -/
theorem C5_hypsometric_witness :
    hypsoZrec Real.log 287.058 9.80665 (fun _ => (1 : ℝ)) (fun k => 1 / ((k : ℝ) + 1)) 1 0
      < hypsoZrec Real.log 287.058 9.80665 (fun _ => (1 : ℝ)) (fun k => 1 / ((k : ℝ) + 1)) 1 1 :=
  (C5_hypsometric_monotone 2 (fun _ => 1) (fun k => 1 / ((k : ℝ) + 1)) 1
    (fun _ _ => by norm_num)
    (fun k hk => by
      have hk0 : k = 0 := by omega
      subst hk0
      norm_num)
    (fun k _ => by positivity)).2.2 0 1 (by norm_num) (by norm_num)

/-- C1: with sanitation enabled (the default) the influx feature is
returned unsanitized — the dispatcher looks up `sanitize_influx` but the
module's sanitizer is named `sanitize_inflow`, so the lookup misses and a
negative influx value (-5) survives to the output, which the sanitizer
would have clipped to 0. -/
theorem C1_influx_sanitation_never_applied :
    (get_data envAll cutout0 "influx" false none).result = .ok dsInfluxOut
    ∧ List.lookup "influx" dsInfluxOut.data_vars = some [-5]
    ∧ ((-5 : ℚ) < 0)
    ∧ globalsGet ("sanitize_" ++ "influx") = none
    ∧ globalsGet "sanitize_inflow" = some GlobalFn.sanInflow
    ∧ sanitize_inflow dsInfluxOut = .ok (dsInfluxOut.setVar "influx" [0]) := by
  decide

/-- C4: on a wind dataset without a surface-pressure variable the
calculator enters the pressure-level regime and then crashes with an
unbound-local error on `t` at the `ds["ta"] = t.ta` assignment, instead
of returning the feature dataset. -/
theorem C4_pressure_level_regime_crashes :
    dsRawNoPS.hasVar "ps" = false
    ∧ (get_data envNoPS cutout0 "wind" false none).result
        = .error (.unboundLocal "t") := by
  decide

/-- C6 counterexample: with a lock supplied, the influx feature's
retrieval acquires and releases the lock once per variable (twice in
total), with an open step after the first release — not one continuous
acquisition across the feature's whole open-and-merge sequence. -/
theorem C6_lock_acquired_once_per_variable :
    (get_data envAll cutout0 "influx" true none).trace
      = [Event.acquire,
         Event.search [("source_id", "CMCC"), ("variant_label", "r1"),
                       ("experiment_id", "ssp2"), ("project", "CMIP6"),
                       ("frequency", "day"), ("variable", "rsds")],
         Event.openFiles ["x_19990101-19991231.nc"],
         Event.release,
         Event.acquire,
         Event.search [("source_id", "CMCC"), ("variant_label", "r1"),
                       ("experiment_id", "ssp2"), ("project", "CMIP6"),
                       ("frequency", "day"), ("variable", "rsus")],
         Event.openFiles ["x_19990101-19991231.nc"],
         Event.release]
    ∧ (get_data envAll cutout0 "influx" true none).trace.count Event.acquire = 2 := by
  decide

/-- C3 counterexample: the dispatcher defaults the retrieval frequency to
"h" for an hourly cutout without a supplied frequency, yet the first
catalog search of the influx feature queries with frequency "day" — the
cutout's `frequency_solar` value, not the dispatcher's frequency. -/
theorem C3_resolution_ignores_dispatcher_frequency :
    cadenceFreq cutout0.dt = .ok "h"
    ∧ List.lookup "frequency" ((cutout0.esgf_params).getD []) = none
    ∧ (get_data envAll cutout0 "influx" false none).trace.head?
        = some (Event.search [("source_id", "CMCC"), ("variant_label", "r1"),
            ("experiment_id", "ssp2"), ("project", "CMIP6"), ("frequency", "day"),
            ("variable", "rsds")])
    ∧ ("day" : String) ≠ "h" := by
  decide

/-- C2 counterexample: a `get_data` call with the unregistered feature
name "runoff" fails before any retrieval, but with a bare `TypeError`
(calling `None`) whose message does not mention the feature name. -/
theorem C2_unregistered_feature_error_not_descriptive :
    ("runoff" ∉ features.map Prod.fst)
    ∧ (get_data envAll cutout0 "runoff" false none).result
        = .error (.typeError "NoneType object is not callable")
    ∧ (get_data envAll cutout0 "runoff" false none).trace = []
    ∧ containsSeqB "runoff".data "NoneType object is not callable".data = false := by
  decide

/-- Every event the per-variable retrieval loop emits is a search or an
open step, and every search it emits queries with the caller's
`frequency` value (only the `variable` key is rewritten). -/
theorem retrieveLoop_events_shape (env : Env) (params : StrMap) (years : List Nat)
    (vars : List String) :
    ∀ e ∈ (retrieveLoop env params years vars).2,
      (∃ p, e = Event.search p
        ∧ List.lookup "frequency" p = List.lookup "frequency" params)
      ∨ (∃ fs, e = Event.openFiles fs) := by
  induction vars generalizing params with
  | nil =>
    intro e he
    simp [retrieveLoop] at he
  | cons v rest ih =>
    intro e he
    have hfreq : List.lookup "frequency" (dictSet params "variable" v)
        = List.lookup "frequency" params :=
      dictSet_lookup_ne params "variable" v "frequency" (by decide)
    simp only [retrieveLoop] at he
    split at he
    · simp only [List.mem_singleton] at he
      exact Or.inl ⟨_, he, hfreq⟩
    · split at he
      · simp only [List.mem_singleton] at he
        exact Or.inl ⟨_, he, hfreq⟩
      · split at he
        · simp only [List.mem_cons, List.mem_singleton] at he
          rcases he with he | he | he
          · exact Or.inl ⟨_, he, hfreq⟩
          · exact Or.inr ⟨_, he⟩
          · cases he
        · split at he
          case _ heq =>
            simp only [List.mem_cons] at he
            rcases he with he | he | he
            · exact Or.inl ⟨_, he, hfreq⟩
            · exact Or.inr ⟨_, he⟩
            · have := ih (dictSet params "variable" v) e (by rw [heq]; exact he)
              rcases this with ⟨p, hp, hf⟩ | h
              · exact Or.inl ⟨p, hp, hf.trans hfreq⟩
              · exact Or.inr h
          case _ heq =>
            simp only [List.mem_cons] at he
            rcases he with he | he | he
            · exact Or.inl ⟨_, he, hfreq⟩
            · exact Or.inr ⟨_, he⟩
            · have := ih (dictSet params "variable" v) e (by rw [heq]; exact he)
              rcases this with ⟨p, hp, hf⟩ | h
              · exact Or.inl ⟨p, hp, hf.trans hfreq⟩
              · exact Or.inr h

/-- The loop rewrites only the `variable` key of the parameter dict: on
success the returned dict agrees with the input on every other key. -/
theorem retrieveLoop_ok_lookup (env : Env) (params : StrMap) (years : List Nat)
    (vars : List String) (k : String) (hk : k ≠ "variable") :
    ∀ dsets pfinal, (retrieveLoop env params years vars).1 = .ok (dsets, pfinal) →
      List.lookup k pfinal = List.lookup k params := by
  induction vars generalizing params with
  | nil =>
    intro dsets pfinal h
    simp only [retrieveLoop] at h
    injection h with h1
    injection h1 with _ h2
    rw [← h2]
  | cons v rest ih =>
    intro dsets pfinal h
    have hset : List.lookup k (dictSet params "variable" v) = List.lookup k params :=
      dictSet_lookup_ne params "variable" v k hk
    simp only [retrieveLoop] at h
    split at h
    · cases h
    · split at h
      · cases h
      · split at h
        · cases h
        · split at h
          case _ heq => cases h
          case _ dsets' pfinal' evs' heq =>
            injection h with h1
            injection h1 with hds hpf
            subst hpf
            have heq1 : (retrieveLoop env (dictSet params "variable" v) years rest).1
                = .ok (dsets', pfinal') := by rw [heq]
            exact (ih (dictSet params "variable" v) dsets' pfinal' heq1).trans hset

/-- Key preservation through a whole `retrieve_data` call. -/
theorem retrieve_data_ok_lookup (env : Env) (params : StrMap) (years : List Nat)
    (vars : List String) (lock : Bool) (k : String) (hk : k ≠ "variable") :
    ∀ ds pfinal, (retrieve_data env params years vars lock).1 = .ok (ds, pfinal) →
      List.lookup k pfinal = List.lookup k params := by
  intro ds pfinal h
  unfold retrieve_data at h
  split at h
  · cases h
  case _ dsets pfinal' evs heq =>
    injection h with h1
    injection h1 with hds hpf
    subst hpf
    have heq1 : (retrieveLoop env params years vars).1 = .ok (dsets, pfinal') := by rw [heq]
    exact retrieveLoop_ok_lookup env params years vars k hk dsets pfinal' heq1

/-- The search events of a whole `retrieve_data` call (with or without a
lock) query with the caller's `frequency` value. -/
theorem retrieve_data_search_freq (env : Env) (params : StrMap) (years : List Nat)
    (vars : List String) (lock : Bool) :
    ∀ p, Event.search p ∈ (retrieve_data env params years vars lock).2 →
      List.lookup "frequency" p = List.lookup "frequency" params := by
  intro p hp
  have hloop : Event.search p ∈ (retrieveLoop env params years vars).2 →
      List.lookup "frequency" p = List.lookup "frequency" params := by
    intro hmem
    rcases retrieveLoop_events_shape env params years vars _ hmem with ⟨q, hq, hf⟩ | ⟨fs, hfs⟩
    · injection hq with h1
      subst h1
      exact hf
    · cases hfs
  unfold retrieve_data at hp
  split at hp
  case _ heq =>
    by_cases hl : lock
    · subst hl
      simp only [if_true, List.mem_cons, List.mem_append, List.mem_singleton] at hp
      rcases hp with hp | hp | hp
      · simp at hp
      · exact hloop (by rw [heq]; exact hp)
      · simp at hp
    · rw [if_neg hl] at hp
      exact hloop (by rw [heq]; exact hp)
  case _ heq =>
    by_cases hl : lock
    · subst hl
      simp only [if_true, List.mem_cons, List.mem_append, List.mem_singleton] at hp
      rcases hp with hp | hp | hp
      · simp at hp
      · exact hloop (by rw [heq]; exact hp)
      · simp at hp
    · rw [if_neg hl] at hp
      exact hloop (by rw [heq]; exact hp)

/-- C6 (amended): within each `retrieve_data` call a supplied lock is
acquired once before that call's whole per-variable search-and-open
sequence and released once after it — on success and failure alike — and
with no lock supplied no acquisition or release happens.  The per-feature
sequence, however, consists of one such call per variable (see the
counterexample), so the lock is not held continuously across a feature. -/
theorem C6_lock_held_per_retrieve_call :
    ∀ (env : Env) (params : StrMap) (years : List Nat) (vars : List String),
      (retrieve_data env params years vars true).2
        = Event.acquire :: ((retrieveLoop env params years vars).2 ++ [Event.release])
      ∧ Event.acquire ∉ (retrieveLoop env params years vars).2
      ∧ Event.release ∉ (retrieveLoop env params years vars).2
      ∧ (retrieve_data env params years vars false).2
        = (retrieveLoop env params years vars).2 := by
  intro env params years vars
  have hacq : Event.acquire ∉ (retrieveLoop env params years vars).2 := by
    intro hmem
    rcases retrieveLoop_events_shape env params years vars _ hmem with ⟨p, hp, _⟩ | ⟨fs, hfs⟩
    · cases hp
    · cases hfs
  have hrel : Event.release ∉ (retrieveLoop env params years vars).2 := by
    intro hmem
    rcases retrieveLoop_events_shape env params years vars _ hmem with ⟨p, hp, _⟩ | ⟨fs, hfs⟩
    · cases hp
    · cases hfs
  refine ⟨?_, hacq, hrel, ?_⟩
  · rcases hr : retrieveLoop env params years vars with ⟨res, evs⟩
    rcases res with e | ⟨dsets, pfinal⟩ <;> simp [retrieve_data, hr]
  · rcases hr : retrieveLoop env params years vars with ⟨res, evs⟩
    rcases res with e | ⟨dsets, pfinal⟩ <;> simp [retrieve_data, hr]

theorem dictGetE_ok_lookup (m : StrMap) (k v : String) (h : dictGetE m k = .ok v) :
    List.lookup k m = some v := by
  unfold dictGetE at h
  cases hl : List.lookup k m with
  | none => rw [hl] at h; cases h
  | some w => rw [hl] at h; injection h with h1; rw [h1]

theorem subParamsInflux_freq (all m : StrMap) (h : subParamsInflux all = .ok m) :
    List.lookup "frequency" m = List.lookup "frequency_solar" all
    ∧ List.lookup "variable" m = none := by
  unfold subParamsInflux at h
  simp only [bind, Except.bind, pure, Except.pure] at h
  cases h1 : dictGetE all "source_id" <;> rw [h1] at h
  case error => cases h
  case ok sid =>
  cases h2 : dictGetE all "variant_label" <;> rw [h2] at h
  case error => cases h
  case ok vl =>
  cases h3 : dictGetE all "experiment_id" <;> rw [h3] at h
  case error => cases h
  case ok ex =>
  cases h4 : dictGetE all "project" <;> rw [h4] at h
  case error => cases h
  case ok pr =>
  cases h5 : dictGetE all "frequency_solar" <;> rw [h5] at h
  case error => cases h
  case ok fr =>
  injection h with hm
  subst hm
  refine ⟨?_, by simp [List.lookup]⟩
  rw [dictGetE_ok_lookup all "frequency_solar" fr h5]
  simp [List.lookup]

theorem subParamsSurface_freq (all m : StrMap) (h : subParamsSurface all = .ok m) :
    List.lookup "frequency" m = List.lookup "frequency_temp" all
    ∧ List.lookup "variable" m = none := by
  unfold subParamsSurface at h
  simp only [bind, Except.bind, pure, Except.pure] at h
  cases h1 : dictGetE all "source_id" <;> rw [h1] at h
  case error => cases h
  case ok sid =>
  cases h2 : dictGetE all "variant_label" <;> rw [h2] at h
  case error => cases h
  case ok vl =>
  cases h3 : dictGetE all "experiment_id" <;> rw [h3] at h
  case error => cases h
  case ok ex =>
  cases h4 : dictGetE all "project" <;> rw [h4] at h
  case error => cases h
  case ok pr =>
  cases h5 : dictGetE all "frequency_temp" <;> rw [h5] at h
  case error => cases h
  case ok fr =>
  injection h with hm
  subst hm
  refine ⟨?_, by simp [List.lookup]⟩
  rw [dictGetE_ok_lookup all "frequency_temp" fr h5]
  simp [List.lookup]

theorem subParamsWind10m_freq (all m : StrMap) (h : subParamsWind10m all = .ok m) :
    List.lookup "frequency" m = List.lookup "frequency_wnd10m" all
    ∧ List.lookup "variable" m = none := by
  unfold subParamsWind10m at h
  simp only [bind, Except.bind, pure, Except.pure] at h
  cases h1 : dictGetE all "source_id" <;> rw [h1] at h
  case error => cases h
  case ok sid =>
  cases h2 : dictGetE all "variant_label" <;> rw [h2] at h
  case error => cases h
  case ok vl =>
  cases h3 : dictGetE all "experiment_id" <;> rw [h3] at h
  case error => cases h
  case ok ex =>
  cases h4 : dictGetE all "project" <;> rw [h4] at h
  case error => cases h
  case ok pr =>
  cases h5 : dictGetE all "frequency_wnd10m" <;> rw [h5] at h
  case error => cases h
  case ok fr =>
  injection h with hm
  subst hm
  refine ⟨?_, by simp [List.lookup]⟩
  rw [dictGetE_ok_lookup all "frequency_wnd10m" fr h5]
  simp [List.lookup]

theorem subParamsWind_freq (all m : StrMap) (h : subParamsWind all = .ok m) :
    List.lookup "frequency" m = List.lookup "frequency_wind" all
    ∧ List.lookup "variable" m = none := by
  unfold subParamsWind at h
  simp only [bind, Except.bind, pure, Except.pure] at h
  cases h1 : dictGetE all "source_id" <;> rw [h1] at h
  case error => cases h
  case ok sid =>
  cases h2 : dictGetE all "variant_label" <;> rw [h2] at h
  case error => cases h
  case ok vl =>
  cases h3 : dictGetE all "experiment_id" <;> rw [h3] at h
  case error => cases h
  case ok ex =>
  cases h4 : dictGetE all "project" <;> rw [h4] at h
  case error => cases h
  case ok pr =>
  cases h5 : dictGetE all "frequency_wind" <;> rw [h5] at h
  case error => cases h
  case ok fr =>
  cases h6 : dictGetE all "table_id_wind" <;> rw [h6] at h
  case error => cases h
  case ok tb =>
  injection h with hm
  subst hm
  refine ⟨?_, by simp [List.lookup]⟩
  rw [dictGetE_ok_lookup all "frequency_wind" fr h5]
  simp [List.lookup]

theorem get_data_influx_search_freq (env : Env) (all : StrMap) (years : List Nat)
    (lock : Bool) (p : StrMap)
    (hp : Event.search p ∈ (get_data_influx env all years lock).2) :
    List.lookup "frequency" p = List.lookup "frequency_solar" all := by
  unfold get_data_influx at hp
  split at hp
  · simp at hp
  case _ m heqsub =>
  have hms := (subParamsInflux_freq all m heqsub).1
  split at hp
  case _ e ev1 heq1 =>
    exact (retrieve_data_search_freq env m years ["rsds"] lock p
      (by rw [heq1]; exact hp)).trans hms
  case _ drsds p1 ev1 heq1 =>
  have hp1m : List.lookup "frequency" p1 = List.lookup "frequency" m :=
    retrieve_data_ok_lookup env m years ["rsds"] lock "frequency" (by decide)
      drsds p1 (by rw [heq1])
  split at hp
  case _ e ev2 heq2 =>
    rcases List.mem_append.1 hp with hp | hp
    · exact (retrieve_data_search_freq env m years ["rsds"] lock p
        (by rw [heq1]; exact hp)).trans hms
    · exact ((retrieve_data_search_freq env p1 years ["rsus"] lock p
        (by rw [heq2]; exact hp)).trans hp1m).trans hms
  case _ drsus p2 ev2 heq2 =>
  try dsimp only [] at hp
  iterate 5 (all_goals (try split at hp))
  all_goals (
    rcases List.mem_append.1 hp with hp | hp
    · exact (retrieve_data_search_freq env m years ["rsds"] lock p
        (by rw [heq1]; exact hp)).trans hms
    · exact ((retrieve_data_search_freq env p1 years ["rsus"] lock p
        (by rw [heq2]; exact hp)).trans hp1m).trans hms)

theorem get_data_wind10m_search_freq (env : Env) (all : StrMap) (years : List Nat)
    (lock : Bool) (p : StrMap)
    (hp : Event.search p ∈ (get_data_wind10m env all years lock).2) :
    List.lookup "frequency" p = List.lookup "frequency_wnd10m" all := by
  unfold get_data_wind10m at hp
  split at hp
  · simp at hp
  case _ m heqsub =>
  have hms := (subParamsWind10m_freq all m heqsub).1
  split at hp
  case _ e ev1 heq1 =>
    exact (retrieve_data_search_freq env m years ["uas"] lock p
      (by rw [heq1]; exact hp)).trans hms
  case _ duas p1 ev1 heq1 =>
  have hp1m : List.lookup "frequency" p1 = List.lookup "frequency" m :=
    retrieve_data_ok_lookup env m years ["uas"] lock "frequency" (by decide)
      duas p1 (by rw [heq1])
  split at hp
  case _ e ev2 heq2 =>
    rcases List.mem_append.1 hp with hp | hp
    · exact (retrieve_data_search_freq env m years ["uas"] lock p
        (by rw [heq1]; exact hp)).trans hms
    · exact ((retrieve_data_search_freq env p1 years ["vas"] lock p
        (by rw [heq2]; exact hp)).trans hp1m).trans hms
  case _ dvas p2 ev2 heq2 =>
  try dsimp only [] at hp
  iterate 7 (all_goals (try split at hp))
  all_goals (
    rcases List.mem_append.1 hp with hp | hp
    · exact (retrieve_data_search_freq env m years ["uas"] lock p
        (by rw [heq1]; exact hp)).trans hms
    · exact ((retrieve_data_search_freq env p1 years ["vas"] lock p
        (by rw [heq2]; exact hp)).trans hp1m).trans hms)

theorem get_data_surface_search_freq (env : Env) (all : StrMap) (years : List Nat)
    (lock : Bool) (p : StrMap)
    (hp : Event.search p ∈ (get_data_surface env all years lock).2) :
    List.lookup "frequency" p = List.lookup "frequency_temp" all := by
  unfold get_data_surface at hp
  split at hp
  · simp at hp
  case _ m heqsub =>
  have hms := (subParamsSurface_freq all m heqsub).1
  split at hp
  case _ e ev1 heq1 =>
    exact (retrieve_data_search_freq env m years ["tas"] lock p
      (by rw [heq1]; exact hp)).trans hms
  case _ dtas p1 ev1 heq1 =>
  have hp1m : List.lookup "frequency" p1 = List.lookup "frequency" m :=
    retrieve_data_ok_lookup env m years ["tas"] lock "frequency" (by decide)
      dtas p1 (by rw [heq1])
  split at hp
  case _ e ev2 heq2 =>
    rcases List.mem_append.1 hp with hp | hp
    · exact (retrieve_data_search_freq env m years ["tas"] lock p
        (by rw [heq1]; exact hp)).trans hms
    · exact ((retrieve_data_search_freq env p1 years ["huss"] lock p
        (by rw [heq2]; exact hp)).trans hp1m).trans hms
  case _ dqs p2 ev2 heq2 =>
  have hp2m : List.lookup "frequency" p2 = List.lookup "frequency" p1 :=
    retrieve_data_ok_lookup env p1 years ["huss"] lock "frequency" (by decide)
      dqs p2 (by rw [heq2])
  split at hp
  case _ e ev3 heq3 =>
    rcases List.mem_append.1 hp with hp | hp
    rcases List.mem_append.1 hp with hp | hp
    · exact (retrieve_data_search_freq env m years ["tas"] lock p
        (by rw [heq1]; exact hp)).trans hms
    · exact ((retrieve_data_search_freq env p1 years ["huss"] lock p
        (by rw [heq2]; exact hp)).trans hp1m).trans hms
    · exact (((retrieve_data_search_freq env p2 years ["ps"] lock p
        (by rw [heq3]; exact hp)).trans hp2m).trans hp1m).trans hms
  case _ dps p3 ev3 heq3 =>
  try dsimp only [] at hp
  iterate 8 (all_goals (try split at hp))
  all_goals (
    rcases List.mem_append.1 hp with hp | hp
    rcases List.mem_append.1 hp with hp | hp
    · exact (retrieve_data_search_freq env m years ["tas"] lock p
        (by rw [heq1]; exact hp)).trans hms
    · exact ((retrieve_data_search_freq env p1 years ["huss"] lock p
        (by rw [heq2]; exact hp)).trans hp1m).trans hms
    · exact (((retrieve_data_search_freq env p2 years ["ps"] lock p
        (by rw [heq3]; exact hp)).trans hp2m).trans hp1m).trans hms)

theorem windVertical_search_freq (env : Env) (u : Dataset) (p2 : StrMap)
    (years : List Nat) (lock : Bool) (a b : ℚ) (hasPS : Bool) (p : StrMap)
    (hp : Event.search p ∈ (windVertical env u p2 years lock a b hasPS).2) :
    List.lookup "frequency" p = List.lookup "frequency" p2 := by
  unfold windVertical at hp
  split at hp
  · split at hp
    case _ e ev3 heq3 =>
      exact retrieve_data_search_freq env p2 years ["ta"] lock p (by rw [heq3]; exact hp)
    case _ dt p3 ev3 heq3 =>
    have hp3 : List.lookup "frequency" p3 = List.lookup "frequency" p2 :=
      retrieve_data_ok_lookup env p2 years ["ta"] lock "frequency" (by decide)
        dt p3 (by rw [heq3])
    try dsimp only [] at hp
    split at hp
    case _ e ev4 heq4 =>
      rcases List.mem_append.1 hp with hp | hp
      · exact retrieve_data_search_freq env p2 years ["ta"] lock p (by rw [heq3]; exact hp)
      · exact (retrieve_data_search_freq env p3 years ["hus"] lock p
          (by rw [heq4]; exact hp)).trans hp3
    case _ dq p4 ev4 heq4 =>
    try dsimp only [] at hp
    iterate 8 (all_goals (try split at hp))
    all_goals (
      rcases List.mem_append.1 hp with hp | hp
      · exact retrieve_data_search_freq env p2 years ["ta"] lock p (by rw [heq3]; exact hp)
      · exact (retrieve_data_search_freq env p3 years ["hus"] lock p
          (by rw [heq4]; exact hp)).trans hp3)
  · iterate 3 (all_goals (try split at hp))
    all_goals simp at hp

theorem get_data_wind_search_freq (env : Env) (all : StrMap) (years : List Nat)
    (lock : Bool) (p : StrMap)
    (hp : Event.search p ∈ (get_data_wind env all years lock).2) :
    List.lookup "frequency" p = List.lookup "frequency_wind" all := by
  unfold get_data_wind at hp
  split at hp
  · simp at hp
  case _ m heqsub =>
  have hms := (subParamsWind_freq all m heqsub).1
  split at hp
  case _ e ev1 heq1 =>
    exact (retrieve_data_search_freq env m years ["ua"] lock p
      (by rw [heq1]; exact hp)).trans hms
  case _ du p1 ev1 heq1 =>
  have hp1m : List.lookup "frequency" p1 = List.lookup "frequency" m :=
    retrieve_data_ok_lookup env m years ["ua"] lock "frequency" (by decide)
      du p1 (by rw [heq1])
  try dsimp only [] at hp
  split at hp
  case _ e ev2 heq2 =>
    rcases List.mem_append.1 hp with hp | hp
    · exact (retrieve_data_search_freq env m years ["ua"] lock p
        (by rw [heq1]; exact hp)).trans hms
    · exact ((retrieve_data_search_freq env p1 years ["va"] lock p
        (by rw [heq2]; exact hp)).trans hp1m).trans hms
  case _ dv p2 ev2 heq2 =>
  have hp2m : List.lookup "frequency" p2 = List.lookup "frequency" p1 :=
    retrieve_data_ok_lookup env p1 years ["va"] lock "frequency" (by decide)
      dv p2 (by rw [heq2])
  have hEv12 : ∀ (hp2 : Event.search p ∈ ev1 ++ ev2),
      List.lookup "frequency" p = List.lookup "frequency_wind" all := by
    intro hp2
    rcases List.mem_append.1 hp2 with hp2 | hp2
    · exact (retrieve_data_search_freq env m years ["ua"] lock p
        (by rw [heq1]; exact hp2)).trans hms
    · exact ((retrieve_data_search_freq env p1 years ["va"] lock p
        (by rw [heq2]; exact hp2)).trans hp1m).trans hms
  try dsimp only [] at hp
  split at hp
  · exact hEv12 hp
  split at hp
  · exact hEv12 hp
  split at hp
  case _ e evV hVert =>
    rcases List.mem_append.1 hp with hp | hp
    · exact hEv12 hp
    · exact ((windVertical_search_freq env _ p2 years lock _ _ _ p
        (by rw [hVert]; exact hp)).trans hp2m).trans hp1m |>.trans hms
  case _ w evV hVert =>
    iterate 6 (all_goals (try split at hp))
    all_goals (
      rcases List.mem_append.1 hp with hp | hp
      · exact hEv12 hp
      · exact ((windVertical_search_freq env _ p2 years lock _ _ _ p
          (by rw [hVert]; exact hp)).trans hp2m).trans hp1m |>.trans hms)

/-- C3 (amended): the dispatcher's defaulted frequency is written into
the cutout's parameter dict, but every catalog search issued by every
feature calculator queries with the cutout's feature-specific frequency
key (`frequency_solar`, `frequency_wind`, `frequency_temp`,
`frequency_wnd10m`), not with the dispatcher's `frequency`. -/
theorem C3_catalog_frequency_is_feature_specific :
    ∀ (env : Env) (all : StrMap) (years : List Nat) (lock : Bool) (p : StrMap),
      (Event.search p ∈ (get_data_influx env all years lock).2 →
        List.lookup "frequency" p = List.lookup "frequency_solar" all)
      ∧ (Event.search p ∈ (get_data_wind env all years lock).2 →
        List.lookup "frequency" p = List.lookup "frequency_wind" all)
      ∧ (Event.search p ∈ (get_data_surface env all years lock).2 →
        List.lookup "frequency" p = List.lookup "frequency_temp" all)
      ∧ (Event.search p ∈ (get_data_wind10m env all years lock).2 →
        List.lookup "frequency" p = List.lookup "frequency_wnd10m" all) :=
  fun env all years lock p =>
    ⟨get_data_influx_search_freq env all years lock p,
     get_data_wind_search_freq env all years lock p,
     get_data_surface_search_freq env all years lock p,
     get_data_wind10m_search_freq env all years lock p⟩

/-- Witness for the amended C3: the first influx search of the concrete
run queries with frequency "day", the cutout's `frequency_solar`. -/
theorem C3_catalog_frequency_witness :
    List.lookup "frequency"
        [("source_id", "CMCC"), ("variant_label", "r1"), ("experiment_id", "ssp2"),
         ("project", "CMIP6"), ("frequency", "day"), ("variable", "rsds")]
      = List.lookup "frequency_solar" ((cutout0.esgf_params).getD []) :=
  (C3_catalog_frequency_is_feature_specific envAll ((cutout0.esgf_params).getD [])
      [1999] false
      [("source_id", "CMCC"), ("variant_label", "r1"), ("experiment_id", "ssp2"),
       ("project", "CMIP6"), ("frequency", "day"), ("variable", "rsds")]).1
    (by decide)

theorem string_append_cancel (p a b : String) (h : p ++ a = p ++ b) : a = b := by
  have hd := congrArg String.data h
  rw [String.data_append, String.data_append] at hd
  exact String.ext (List.append_cancel_left hd)

/-- The calculator lookup misses for every feature name outside the
registry: `get_data_<f>` matches none of the module's function names. -/
theorem globalsGet_unregistered (f : String) (h : f ∉ features.map Prod.fst) :
    globalsGet ("get_data_" ++ f) = none := by
  have hreg : ¬ (f = "wind" ∨ f = "influx" ∨ f = "wind10m" ∨ f = "surface") := by
    intro hc
    apply h
    simp [features]
    tauto
  have hni : "get_data_" ++ f ≠ "get_data_influx" := fun hc =>
    hreg (Or.inr (Or.inl (string_append_cancel "get_data_" f "influx"
      (hc.trans (by decide)))))
  have hnw : "get_data_" ++ f ≠ "get_data_wind" := fun hc =>
    hreg (Or.inl (string_append_cancel "get_data_" f "wind" (hc.trans (by decide))))
  have hnsu : "get_data_" ++ f ≠ "get_data_surface" := fun hc =>
    hreg (Or.inr (Or.inr (Or.inr (string_append_cancel "get_data_" f "surface"
      (hc.trans (by decide))))))
  have hnw10 : "get_data_" ++ f ≠ "get_data_wind10m" := fun hc =>
    hreg (Or.inr (Or.inr (Or.inl (string_append_cancel "get_data_" f "wind10m"
      (hc.trans (by decide))))))
  have hns : "get_data_" ++ f ≠ "sanitize_inflow" := by
    intro hc
    have hd := congrArg String.data hc
    rw [String.data_append] at hd
    have h2 : ("sanitize_inflow").data = ("sanitize_").data ++ ("inflow").data := by decide
    rw [h2] at hd
    have hlen : ("get_data_").data.length = ("sanitize_").data.length := by decide
    have := (List.append_inj hd hlen).1
    exact absurd this (by decide)
  simp only [globalsGet, if_neg hni, if_neg hnw, if_neg hnsu, if_neg hnw10, if_neg hns]

/-- C2 (amended): a `get_data` call with an unregistered feature name
fails before any retrieval is attempted (empty event trace, no dataset
returned), but — once the cutout's parameters and frequency pass
validation — the failure is the non-descriptive `TypeError` of calling
`None`, which does not carry the feature name. -/
theorem C2_unregistered_feature_fails_before_retrieval :
    ∀ (env : Env) (cutout : Cutout) (feature : String) (lock : Bool) (sArg : Option Bool),
      feature ∉ features.map Prod.fst →
      ((get_data env cutout feature lock sArg).trace = []
       ∧ (∀ ds, (get_data env cutout feature lock sArg).result ≠ .ok ds)
       ∧ (∀ m freq, cutout.esgf_params = some m →
            (List.lookup "frequency" m = some freq
             ∨ (List.lookup "frequency" m = none ∧ cadenceFreq cutout.dt = .ok freq)) →
            (get_data env cutout feature lock sArg).result
              = .error (.typeError "NoneType object is not callable"))) := by
  intro env cutout feature lock sArg hf
  have hglob := globalsGet_unregistered feature hf
  cases hep : cutout.esgf_params with
  | none =>
    have hres : get_data env cutout feature lock sArg
        = ⟨.error (.valueError "ESGF search parameters not provided"), cutout, []⟩ := by
      simp [get_data, hep]
    refine ⟨by rw [hres], ?_, ?_⟩
    · intro ds h
      rw [hres] at h
      simp at h
    · intro m freq hm _
      cases hm
  | some m0 =>
    cases hfr : List.lookup "frequency" m0 with
    | some f0 =>
      have hres : (get_data env cutout feature lock sArg).result
            = .error (.typeError "NoneType object is not callable")
          ∧ (get_data env cutout feature lock sArg).trace = [] := by
        constructor <;> simp [get_data, hep, hfr, hglob]
      refine ⟨hres.2, ?_, fun m freq hm hd => hres.1⟩
      intro ds h
      rw [hres.1] at h
      simp at h
    | none =>
      cases hcad : cadenceFreq cutout.dt with
      | error e =>
        have hres : (get_data env cutout feature lock sArg).result = .error e
            ∧ (get_data env cutout feature lock sArg).trace = [] := by
          constructor <;> simp [get_data, hep, hfr, hcad]
        refine ⟨hres.2, ?_, ?_⟩
        · intro ds h
          rw [hres.1] at h
          simp at h
        intro m freq hm hd
        injection hm with hm
        subst hm
        rcases hd with hd | ⟨_, hd⟩
        · rw [hfr] at hd
          cases hd
        · cases hd
      | ok freq0 =>
        have hres : (get_data env cutout feature lock sArg).result
              = .error (.typeError "NoneType object is not callable")
            ∧ (get_data env cutout feature lock sArg).trace = [] := by
          constructor <;> simp [get_data, hep, hfr, hcad, hglob]
        refine ⟨hres.2, ?_, fun m freq hm hd => hres.1⟩
        intro ds h
        rw [hres.1] at h
        simp at h

/-- Witness for the amended C2 at the unregistered feature "runoff". -/
theorem C2_unregistered_feature_witness :
    (get_data envAll cutout0 "runoff" false none).trace = []
    ∧ (get_data envAll cutout0 "runoff" false none).result
        = .error (.typeError "NoneType object is not callable") :=
  ⟨(C2_unregistered_feature_fails_before_retrieval envAll cutout0 "runoff" false none
      (by decide)).1,
   (C2_unregistered_feature_fails_before_retrieval envAll cutout0 "runoff" false none
      (by decide)).2.2 ((cutout0.esgf_params).getD []) "h" (by decide)
      (Or.inr ⟨by decide, by decide⟩)⟩

theorem dictSet_self_id (m : StrMap) (k v : String) (h : List.lookup k m = some v) :
    dictSet m k v = m := by
  induction m with
  | nil => cases h
  | cons hd tl ih =>
    obtain ⟨k0, v0⟩ := hd
    simp only [List.lookup] at h
    by_cases h0 : k = k0
    · subst h0
      simp only [beq_self_eq_true] at h
      injection h with h1
      subst h1
      simp [dictSet]
    · have hne : (k == k0) = false := beq_eq_false_iff_ne.mpr h0
      rw [hne] at h
      simp only [dictSet, if_neg (Ne.symm h0)]
      rw [ih h]

/-- On every validated call, `get_data` returns the cutout with its
parameter dict rewritten in place: the defaulted frequency is inserted,
whatever the feature dispatch and calculator then do. -/
theorem get_data_cutout_eq (env : Env) (cutout : Cutout) (feature : String)
    (lock : Bool) (sArg : Option Bool) (m : StrMap) (freq : String)
    (hep : cutout.esgf_params = some m)
    (hfreqE : (match List.lookup "frequency" m with
               | none => cadenceFreq cutout.dt
               | some f => .ok f) = (.ok freq : Except PyErr String)) :
    (get_data env cutout feature lock sArg).cutout
      = { cutout with esgf_params := some (dictSet m "frequency" freq) } := by
  simp only [get_data, hep, hfreqE]
  repeat first | rfl | split

/-- C10: every `get_data` call that passes parameter validation writes a
`frequency` key into the cutout's parameter mapping in place (the
cadence-table default when it was absent); the change is visible to the
caller afterwards, changes the mapping whenever the key was absent, and
persists across a subsequent `get_data` call. -/
theorem C10_get_data_mutates_cutout_params :
    ∀ (env : Env) (cutout : Cutout) (feature : String) (lock : Bool) (sArg : Option Bool)
      (m : StrMap) (freq : String),
      cutout.esgf_params = some m →
      (List.lookup "frequency" m = some freq
       ∨ (List.lookup "frequency" m = none ∧ cadenceFreq cutout.dt = .ok freq)) →
      ((get_data env cutout feature lock sArg).cutout.esgf_params
          = some (dictSet m "frequency" freq)
       ∧ List.lookup "frequency" (dictSet m "frequency" freq) = some freq
       ∧ (List.lookup "frequency" m = none → dictSet m "frequency" freq ≠ m)
       ∧ ∀ (env' : Env) (feature' : String) (lock' : Bool) (sArg' : Option Bool),
           (get_data env' (get_data env cutout feature lock sArg).cutout
               feature' lock' sArg').cutout.esgf_params
             = some (dictSet m "frequency" freq)) := by
  intro env cutout feature lock sArg m freq hep hd
  have hfreqE : (match List.lookup "frequency" m with
                 | none => cadenceFreq cutout.dt
                 | some f => .ok f) = (.ok freq : Except PyErr String) := by
    rcases hd with hl | ⟨hl, hc⟩
    · rw [hl]
    · rw [hl, hc]
  have hcut := get_data_cutout_eq env cutout feature lock sArg m freq hep hfreqE
  have hself := dictSet_lookup_self m "frequency" freq
  refine ⟨by rw [hcut], hself, ?_, ?_⟩
  · intro h0 hc
    rw [hc, h0] at hself
    cases hself
  · intro env' feature' lock' sArg'
    have hep' : ((get_data env cutout feature lock sArg).cutout).esgf_params
        = some (dictSet m "frequency" freq) := by rw [hcut]
    have hfreqE' : (match List.lookup "frequency" (dictSet m "frequency" freq) with
                    | none => cadenceFreq ((get_data env cutout feature lock sArg).cutout).dt
                    | some f => .ok f) = (.ok freq : Except PyErr String) := by
      rw [hself]
    have hcut2 := get_data_cutout_eq env' ((get_data env cutout feature lock sArg).cutout)
      feature' lock' sArg' (dictSet m "frequency" freq) freq hep' hfreqE'
    rw [hcut2]
    rw [dictSet_self_id (dictSet m "frequency" freq) "frequency" freq hself]

/-- Witness for C10: the concrete influx run adds `frequency = "h"` (the
hourly cadence token) to the cutout's parameter dict. -/
theorem C10_get_data_mutates_witness :
    (get_data envAll cutout0 "influx" false none).cutout.esgf_params
      = some (dictSet ((cutout0.esgf_params).getD []) "frequency" "h")
    ∧ List.lookup "frequency"
        (dictSet ((cutout0.esgf_params).getD []) "frequency" "h") = some "h"
    ∧ dictSet ((cutout0.esgf_params).getD []) "frequency" "h"
        ≠ (cutout0.esgf_params).getD [] :=
  ⟨(C10_get_data_mutates_cutout_params envAll cutout0 "influx" false none
      ((cutout0.esgf_params).getD []) "h" (by decide)
      (Or.inr ⟨by decide, by decide⟩)).1,
   (C10_get_data_mutates_cutout_params envAll cutout0 "influx" false none
      ((cutout0.esgf_params).getD []) "h" (by decide)
      (Or.inr ⟨by decide, by decide⟩)).2.1,
   (C10_get_data_mutates_cutout_params envAll cutout0 "influx" false none
      ((cutout0.esgf_params).getD []) "h" (by decide)
      (Or.inr ⟨by decide, by decide⟩)).2.2.1 (by decide)⟩

theorem hasVar_iff_mem_names (ds : Dataset) (x : String) :
    ds.hasVar x = true ↔ x ∈ ds.names := by
  simp [Dataset.hasVar, Dataset.names, List.any_eq_true]

theorem mem_names_setVar (ds : Dataset) (n : String) (v : List ℚ) (x : String) :
    x ∈ (ds.setVar n v).names ↔ (x ∈ ds.names ∨ x = n) := by
  unfold Dataset.setVar
  by_cases h : ds.hasVar n
  · rw [if_pos h]
    have hn : n ∈ ds.names := (hasVar_iff_mem_names ds n).1 h
    simp only [Dataset.names, List.map_map, List.mem_map] at hn ⊢
    constructor
    · rintro ⟨p, hp, he⟩
      by_cases hpn : p.1 = n
      · simp only [Function.comp, hpn, if_pos rfl] at he
        exact Or.inr he.symm
      · simp only [Function.comp, if_neg hpn] at he
        exact Or.inl ⟨p, hp, he⟩
    · rintro (⟨p, hp, rfl⟩ | rfl)
      · by_cases hpn : p.1 = n
        · rcases hn with ⟨q, hq, hq1⟩
          exact ⟨q, hq, by simp [Function.comp, hq1, hpn]⟩
        · exact ⟨p, hp, by simp [Function.comp, if_neg hpn]⟩
      · rcases hn with ⟨q, hq, hq1⟩
        exact ⟨q, hq, by simp [Function.comp, hq1]⟩
  · rw [if_neg h]
    simp [Dataset.names]

theorem mem_names_keepVars (ds : Dataset) (keep : List String) (x : String) :
    x ∈ (ds.keepVars keep).names ↔ (x ∈ ds.names ∧ x ∈ keep) := by
  simp only [Dataset.keepVars, Dataset.names, List.mem_map, List.mem_filter]
  constructor
  · rintro ⟨p, ⟨hp, hk⟩, rfl⟩
    exact ⟨⟨p, hp, rfl⟩, by simpa using hk⟩
  · rintro ⟨⟨p, hp, rfl⟩, hk⟩
    exact ⟨p, ⟨hp, by simpa using hk⟩, rfl⟩

theorem renameVarE_ok_names (ds ds' : Dataset) (old new : String)
    (h : ds.renameVarE old new = .ok ds') :
    old ∈ ds.names ∧ (∀ x, x ∈ ds'.names ↔ (x = new ∨ (x ∈ ds.names ∧ x ≠ old))) := by
  unfold Dataset.renameVarE at h
  by_cases hv : ds.hasVar old
  · rw [if_pos hv] at h
    injection h with h1
    subst h1
    have hold : old ∈ ds.names := (hasVar_iff_mem_names ds old).1 hv
    refine ⟨hold, ?_⟩
    intro x
    simp only [Dataset.names, List.map_map, List.mem_map] at hold ⊢
    constructor
    · rintro ⟨p, hp, he⟩
      by_cases hpo : p.1 = old
      · simp only [Function.comp, hpo, if_pos rfl] at he
        exact Or.inl he.symm
      · simp only [Function.comp, if_neg hpo] at he
        exact Or.inr ⟨⟨p, hp, he⟩, by rw [← he]; exact hpo⟩
    · rintro (rfl | ⟨⟨p, hp, rfl⟩, hxo⟩)
      · rcases hold with ⟨q, hq, hq1⟩
        exact ⟨q, hq, by simp [Function.comp, hq1]⟩
      · exact ⟨p, hp, by simp [Function.comp, if_neg hxo]⟩
  · rw [if_neg hv] at h
    cases h

theorem dropVarE_ok_names (ds ds' : Dataset) (n : String)
    (h : ds.dropVarE n = .ok ds') :
    ∀ x, x ∈ ds'.names ↔ (x ∈ ds.names ∧ x ≠ n) := by
  unfold Dataset.dropVarE at h
  by_cases hv : ds.hasVar n
  · rw [if_pos hv] at h
    injection h with h1
    subst h1
    intro x
    simp only [Dataset.names, List.mem_map, List.mem_filter]
    constructor
    · rintro ⟨p, ⟨hp, hk⟩, rfl⟩
      refine ⟨⟨p, hp, rfl⟩, by simpa using hk⟩
    · rintro ⟨⟨p, hp, rfl⟩, hk⟩
      exact ⟨p, ⟨hp, by simpa using hk⟩, rfl⟩
  · rw [if_neg hv] at h
    cases h

theorem lookup_some_mem (l : List (String × List ℚ)) (k : String) (v : List ℚ)
    (h : List.lookup k l = some v) : (k, v) ∈ l := by
  induction l with
  | nil => cases h
  | cons hd tl ih =>
    obtain ⟨k0, v0⟩ := hd
    simp only [List.lookup] at h
    by_cases hk : k = k0
    · subst hk
      simp only [beq_self_eq_true] at h
      injection h with h1
      subst h1
      exact List.mem_cons_self _ _
    · rw [beq_eq_false_iff_ne.mpr hk] at h
      exact List.mem_cons_of_mem _ (ih h)

theorem getVarA_ok_mem_names (ds : Dataset) (n : String) (v : List ℚ)
    (h : ds.getVarA n = .ok v) : n ∈ ds.names := by
  unfold Dataset.getVarA at h
  cases hl : List.lookup n ds.data_vars with
  | none => rw [hl] at h; cases h
  | some w =>
    have hmem := lookup_some_mem ds.data_vars n w hl
    exact List.mem_map.2 ⟨(n, w), hmem, rfl⟩

theorem mem_names_selLev (ds : Dataset) (a b : ℚ) (x : String) :
    x ∈ (ds.selLev a b).names ↔ x ∈ ds.names := by
  simp [Dataset.selLev, Dataset.names, List.mem_map]

theorem names_fix_coords (ds : Dataset) :
    (_rename_and_fix_coords ds).names = ds.names := rfl

theorem dictSet_dictSet (m : StrMap) (k v1 v2 : String) :
    dictSet (dictSet m k v1) k v2 = dictSet m k v2 := by
  induction m with
  | nil => simp [dictSet]
  | cons hd tl ih =>
    obtain ⟨k0, v0⟩ := hd
    by_cases h : k0 = k
    · simp [dictSet, h]
    · simp [dictSet, h, ih]

theorem retrieve_data_ok_params_single (env : Env) (params : StrMap) (years : List Nat)
    (v : String) (lock : Bool) (ds : Dataset) (pfinal : StrMap)
    (h : (retrieve_data env params years [v] lock).1 = .ok (ds, pfinal)) :
    pfinal = dictSet params "variable" v := by
  unfold retrieve_data at h
  split at h
  · cases h
  case _ dsets pfinal' evs heq =>
    injection h with h1
    injection h1 with hds hpf
    subst hpf
    simp only [retrieveLoop] at heq
    split at heq
    · injection heq with h1 h2
      cases h1
    · split at heq
      · injection heq with h1 h2
        cases h1
      · split at heq
        · injection heq with h1 h2
          cases h1
        · injection heq with h1 h2
          injection h1 with h3
          injection h3 with hd4 hp4
          rw [← hp4]

theorem get_data_influx_ok_shape (env : Env) (all : StrMap) (years : List Nat)
    (lock : Bool) (ds : Dataset) (evs : List Event) (m : StrMap)
    (hsub : subParamsInflux all = .ok m)
    (h : get_data_influx env all years lock = (.ok ds, evs)) :
    (∀ n, n ∈ ds.names ↔ (n = "influx" ∨ n = "outflux"))
    ∧ ds.attrs.varNames = ["influx", "outflux"]
    ∧ ds.attrs.params = m := by
  unfold get_data_influx at h
  split at h
  case _ e heqm =>
    rw [hsub] at heqm
    cases heqm
  case _ m' heqm =>
  rw [hsub] at heqm
  injection heqm with hm'
  subst hm'
  split at h
  · simp at h
  case _ drsds p1 ev1 heq1 =>
  try dsimp only [] at h
  split at h
  · simp at h
  case _ drsus p2 ev2 heq2 =>
  try dsimp only [] at h
  split at h
  · simp at h
  case _ rsusVals hget =>
  split at h
  · simp at h
  case _ ds2 hren1 =>
  split at h
  · simp at h
  case _ ds3 hren2 =>
  split at h
  · simp at h
  case _ attrParams hpop =>
  injection h with h1 h2
  injection h1 with h1
  subst h1
  have hp1 : p1 = dictSet m "variable" "rsds" :=
    retrieve_data_ok_params_single env m years "rsds" lock drsds p1 (by rw [heq1])
  have hp2 : p2 = dictSet p1 "variable" "rsus" :=
    retrieve_data_ok_params_single env p1 years "rsus" lock drsus p2 (by rw [heq2])
  have hvm : List.lookup "variable" m = none := (subParamsInflux_freq all m hsub).2
  have hpop2 : dictPopE p2 "variable" = .ok m := by
    rw [hp2, hp1, dictSet_dictSet]
    exact dictPopE_dictSet_fresh m "variable" "rsus" hvm
  rw [hpop2] at hpop
  injection hpop with hpop
  subst hpop
  obtain ⟨hold1, hiff1⟩ := renameVarE_ok_names _ _ _ _ hren1
  obtain ⟨hold2, hiff2⟩ := renameVarE_ok_names _ _ _ _ hren2
  refine ⟨?_, rfl, rfl⟩
  intro n
  constructor
  · intro hm
    rcases (hiff2 n).1 hm with rfl | ⟨hm2, hne2⟩
    · exact Or.inr rfl
    · rcases (hiff1 n).1 hm2 with rfl | ⟨hm1, hne1⟩
      · exact Or.inl rfl
      · rcases (mem_names_keepVars _ _ n).1 hm1 with ⟨_, hkeep⟩
        simp only [List.mem_cons, List.mem_singleton] at hkeep
        rcases hkeep with rfl | rfl | hk
        · exact absurd rfl hne1
        · exact absurd rfl hne2
        · cases hk
  · intro hm
    rcases hm with rfl | rfl
    · exact (hiff2 _).2 (Or.inr ⟨(hiff1 _).2 (Or.inl rfl), by decide⟩)
    · exact (hiff2 _).2 (Or.inl rfl)

theorem get_data_surface_ok_shape (env : Env) (all : StrMap) (years : List Nat)
    (lock : Bool) (ds : Dataset) (evs : List Event) (m : StrMap)
    (hsub : subParamsSurface all = .ok m)
    (h : get_data_surface env all years lock = (.ok ds, evs)) :
    (∀ n, n ∈ ds.names ↔ (n = "temperature" ∨ n = "humidity" ∨ n = "pressure"))
    ∧ ds.attrs.varNames = ["temperature", "humidity", "pressure"]
    ∧ ds.attrs.params = m := by
  unfold get_data_surface at h
  split at h
  case _ e heqm =>
    rw [hsub] at heqm
    cases heqm
  case _ m' heqm =>
  rw [hsub] at heqm
  injection heqm with hm'
  subst hm'
  split at h
  · simp at h
  case _ dtas p1 ev1 heq1 =>
  try dsimp only [] at h
  split at h
  · simp at h
  case _ dqs p2 ev2 heq2 =>
  try dsimp only [] at h
  split at h
  · simp at h
  case _ dps p3 ev3 heq3 =>
  try dsimp only [] at h
  split at h
  · simp at h
  case _ ds1 hren1 =>
  split at h
  · simp at h
  case _ tasVals hgt =>
  split at h
  · simp at h
  case _ psVals hgp =>
  split at h
  · simp at h
  case _ qsVals hgq =>
  split at h
  · simp at h
  case _ ds4 hdrop =>
  split at h
  · simp at h
  case _ attrParams hpop =>
  injection h with h1 h2
  injection h1 with h1
  subst h1
  have hp1 : p1 = dictSet m "variable" "tas" :=
    retrieve_data_ok_params_single env m years "tas" lock dtas p1 (by rw [heq1])
  have hp2 : p2 = dictSet p1 "variable" "huss" :=
    retrieve_data_ok_params_single env p1 years "huss" lock dqs p2 (by rw [heq2])
  have hp3 : p3 = dictSet p2 "variable" "ps" :=
    retrieve_data_ok_params_single env p2 years "ps" lock dps p3 (by rw [heq3])
  have hvm : List.lookup "variable" m = none := (subParamsSurface_freq all m hsub).2
  have hpop2 : dictPopE p3 "variable" = .ok m := by
    rw [hp3, hp2, hp1, dictSet_dictSet, dictSet_dictSet]
    exact dictPopE_dictSet_fresh m "variable" "ps" hvm
  rw [hpop2] at hpop
  injection hpop with hpop
  subst hpop
  obtain ⟨hold1, hiff1⟩ := renameVarE_ok_names _ _ _ _ hren1
  have hdropn := dropVarE_ok_names _ _ _ hdrop
  refine ⟨?_, rfl, rfl⟩
  intro n
  constructor
  · intro hm
    rcases (mem_names_keepVars _ _ n).1 hm with ⟨_, hkeep⟩
    simp only [List.mem_cons, List.mem_singleton] at hkeep
    rcases hkeep with rfl | rfl | rfl | hk
    · exact Or.inl rfl
    · exact Or.inr (Or.inl rfl)
    · exact Or.inr (Or.inr rfl)
    · cases hk
  · intro hm
    have hbase : n ∈ ds4.names ∧ n ∈ ["temperature", "humidity", "pressure"] := by
      rcases hm with rfl | rfl | rfl
      · refine ⟨(hdropn _).2 ⟨?_, by decide⟩, by decide⟩
        exact (mem_names_setVar _ _ _ _).2 (Or.inl ((mem_names_setVar _ _ _ _).2
          (Or.inl ((mem_names_setVar _ _ _ _).2 (Or.inl ((hiff1 _).2 (Or.inl rfl)))))))
      · refine ⟨(hdropn _).2 ⟨?_, by decide⟩, by decide⟩
        exact (mem_names_setVar _ _ _ _).2 (Or.inr rfl)
      · refine ⟨(hdropn _).2 ⟨?_, by decide⟩, by decide⟩
        exact (mem_names_setVar _ _ _ _).2 (Or.inl ((mem_names_setVar _ _ _ _).2
          (Or.inr rfl)))
    exact (mem_names_keepVars _ _ n).2 hbase

theorem get_data_wind10m_ok_shape (env : Env) (all : StrMap) (years : List Nat)
    (lock : Bool) (ds : Dataset) (evs : List Event) (m : StrMap)
    (hsub : subParamsWind10m all = .ok m)
    (h : get_data_wind10m env all years lock = (.ok ds, evs)) :
    (∀ n, n ∈ ds.names ↔ (n = "ua10m" ∨ n = "va10m" ∨ n = "wnd10m"))
    ∧ ds.attrs.varNames = ["ua10m", "va10m", "wnd10m"]
    ∧ ds.attrs.params = m := by
  unfold get_data_wind10m at h
  split at h
  case _ e heqm =>
    rw [hsub] at heqm
    cases heqm
  case _ m' heqm =>
  rw [hsub] at heqm
  injection heqm with hm'
  subst hm'
  split at h
  · simp at h
  case _ duas p1 ev1 heq1 =>
  try dsimp only [] at h
  split at h
  · simp at h
  case _ dvas p2 ev2 heq2 =>
  try dsimp only [] at h
  split at h
  · simp at h
  case _ uasVals hgu =>
  split at h
  · simp at h
  case _ vasVals hgv =>
  split at h
  · simp at h
  case _ ds1 hren1 =>
  split at h
  · simp at h
  case _ ds2 hdrop =>
  split at h
  · simp at h
  case _ attrParams hpop =>
  injection h with h1 h2
  injection h1 with h1
  subst h1
  have hp1 : p1 = dictSet m "variable" "uas" :=
    retrieve_data_ok_params_single env m years "uas" lock duas p1 (by rw [heq1])
  have hp2 : p2 = dictSet p1 "variable" "vas" :=
    retrieve_data_ok_params_single env p1 years "vas" lock dvas p2 (by rw [heq2])
  have hvm : List.lookup "variable" m = none := (subParamsWind10m_freq all m hsub).2
  have hpop2 : dictPopE p2 "variable" = .ok m := by
    rw [hp2, hp1, dictSet_dictSet]
    exact dictPopE_dictSet_fresh m "variable" "vas" hvm
  rw [hpop2] at hpop
  injection hpop with hpop
  subst hpop
  obtain ⟨hold1, hiff1⟩ := renameVarE_ok_names _ _ _ _ hren1
  have hdropn := dropVarE_ok_names _ _ _ hdrop
  refine ⟨?_, rfl, rfl⟩
  intro n
  constructor
  · intro hm
    rcases (mem_names_keepVars _ _ n).1 hm with ⟨_, hkeep⟩
    simp only [List.mem_cons, List.mem_singleton] at hkeep
    rcases hkeep with rfl | rfl | rfl | hk
    · exact Or.inr (Or.inl rfl)
    · exact Or.inl rfl
    · exact Or.inr (Or.inr rfl)
    · cases hk
  · intro hm
    have hbase : n ∈ ds2.names ∧ n ∈ ["va10m", "ua10m", "wnd10m"] := by
      rcases hm with rfl | rfl | rfl
      · refine ⟨(hdropn _).2 ⟨?_, by decide⟩, by decide⟩
        exact (mem_names_setVar _ _ _ _).2 (Or.inl ((mem_names_setVar _ _ _ _).2
          (Or.inl ((hiff1 _).2 (Or.inl rfl)))))
      · refine ⟨(hdropn _).2 ⟨?_, by decide⟩, by decide⟩
        exact (mem_names_setVar _ _ _ _).2 (Or.inl ((mem_names_setVar _ _ _ _).2
          (Or.inr rfl)))
      · refine ⟨(hdropn _).2 ⟨?_, by decide⟩, by decide⟩
        exact (mem_names_setVar _ _ _ _).2 (Or.inr rfl)
    exact (mem_names_keepVars _ _ n).2 hbase

theorem windVertical_ok_pFinal (env : Env) (u : Dataset) (p2 : StrMap) (years : List Nat)
    (lock : Bool) (a b : ℚ) (hasPS : Bool) (w : WindVert) (evV : List Event)
    (h : windVertical env u p2 years lock a b hasPS = (.ok w, evV)) :
    w.pFinal = p2 ∨ w.pFinal = dictSet (dictSet p2 "variable" "ta") "variable" "hus" := by
  unfold windVertical at h
  split at h
  · split at h
    · simp at h
    case _ dt p3 ev3 heq3 =>
    try dsimp only [] at h
    split at h
    · simp at h
    case _ dq p4 ev4 heq4 =>
    have hp3 : p3 = dictSet p2 "variable" "ta" :=
      retrieve_data_ok_params_single env p2 years "ta" lock dt p3 (by rw [heq3])
    have hp4 : p4 = dictSet p3 "variable" "hus" :=
      retrieve_data_ok_params_single env p3 years "hus" lock dq p4 (by rw [heq4])
    try dsimp only [] at h
    iterate 8 (all_goals (try split at h))
    all_goals (first
      | (injection h with h1 h2
         injection h1 with h1
         subst h1
         exact Or.inr (hp4.trans (by rw [hp3])))
      | simp at h)
  · try dsimp only [] at h
    iterate 3 (all_goals (try split at h))
    all_goals (first
      | (injection h with h1 h2
         injection h1 with h1
         subst h1
         exact Or.inl rfl)
      | simp at h)

set_option maxHeartbeats 2000000 in
theorem get_data_wind_ok_shape (env : Env) (all : StrMap) (years : List Nat)
    (lock : Bool) (ds : Dataset) (evs : List Event) (m : StrMap)
    (hsub : subParamsWind all = .ok m)
    (h : get_data_wind env all years lock = (.ok ds, evs)) :
    (∀ n, n ∈ ds.names ↔ (n = "wnd" ∨ n = "z" ∨ n = "ua" ∨ n = "va"
        ∨ n = "ta" ∨ n = "hus" ∨ n = "pa"))
    ∧ ds.attrs.varNames = ["wind speed lvl", "z", "ua", "va", "ta", "hus", "pa"]
    ∧ ds.attrs.params = m := by
  unfold get_data_wind at h
  split at h
  case _ e heqm =>
    rw [hsub] at heqm
    cases heqm
  case _ m' heqm =>
  rw [hsub] at heqm
  injection heqm with hm'
  subst hm'
  split at h
  · simp at h
  case _ du p1 ev1 heq1 =>
  try dsimp only [] at h
  split at h
  · simp at h
  case _ dv p2 ev2 heq2 =>
  try dsimp only [] at h
  split at h
  · simp at h
  case _ uaV hgua =>
  split at h
  · simp at h
  case _ vaV hgva =>
  split at h
  · simp at h
  case _ w evV hw =>
  split at h
  · simp at h
  case _ taV hta =>
  split at h
  · simp at h
  case _ husV hhus =>
  split at h
  · simp at h
  case _ paV hpa =>
  split at h
  · simp at h
  case _ attrParams hpop =>
  injection h with h1 h2
  injection h1 with h1
  subst h1
  have hp1 : p1 = dictSet m "variable" "ua" :=
    retrieve_data_ok_params_single env m years "ua" lock du p1 (by rw [heq1])
  have hp2 : p2 = dictSet p1 "variable" "va" :=
    retrieve_data_ok_params_single env p1 years "va" lock dv p2 (by rw [heq2])
  have hvm : List.lookup "variable" m = none := (subParamsWind_freq all m hsub).2
  have hpop2 : dictPopE w.pFinal "variable" = .ok m := by
    rcases windVertical_ok_pFinal env _ p2 years lock _ _ _ w evV hw with hpf | hpf
    · rw [hpf, hp2, hp1, dictSet_dictSet]
      exact dictPopE_dictSet_fresh m "variable" "va" hvm
    · rw [hpf, hp2, hp1, dictSet_dictSet, dictSet_dictSet, dictSet_dictSet]
      exact dictPopE_dictSet_fresh m "variable" "hus" hvm
  rw [hpop2] at hpop
  injection hpop with hpop
  subst hpop
  have huam := getVarA_ok_mem_names _ _ _ hgua
  refine ⟨?_, rfl, rfl⟩
  intro n
  constructor
  · intro hm
    rcases (mem_names_keepVars _ _ n).1 hm with ⟨_, hkeep⟩
    simp only [List.mem_cons, List.mem_singleton] at hkeep
    rcases hkeep with rfl | rfl | rfl | rfl | rfl | rfl | rfl | hk
    · exact Or.inr (Or.inr (Or.inl rfl))
    · exact Or.inr (Or.inr (Or.inr (Or.inl rfl)))
    · exact Or.inl rfl
    · exact Or.inr (Or.inl rfl)
    · exact Or.inr (Or.inr (Or.inr (Or.inr (Or.inl rfl))))
    · exact Or.inr (Or.inr (Or.inr (Or.inr (Or.inr (Or.inl rfl)))))
    · exact Or.inr (Or.inr (Or.inr (Or.inr (Or.inr (Or.inr rfl)))))
    · cases hk
  · intro hm
    refine (mem_names_keepVars _ _ n).2 ⟨?_, ?_⟩
    · rcases hm with rfl | rfl | rfl | rfl | rfl | rfl | rfl
      · exact (mem_names_setVar _ _ _ _).2 (Or.inl ((mem_names_setVar _ _ _ _).2
          (Or.inl ((mem_names_setVar _ _ _ _).2 (Or.inl ((mem_names_setVar _ _ _ _).2
          (Or.inl ((mem_names_setVar _ _ _ _).2 (Or.inl ((mem_names_setVar _ _ _ _).2
          (Or.inr rfl)))))))))))
      · exact (mem_names_setVar _ _ _ _).2 (Or.inl ((mem_names_setVar _ _ _ _).2
          (Or.inl ((mem_names_setVar _ _ _ _).2 (Or.inl ((mem_names_setVar _ _ _ _).2
          (Or.inl ((mem_names_setVar _ _ _ _).2 (Or.inr rfl)))))))))
      · exact (mem_names_setVar _ _ _ _).2 (Or.inl ((mem_names_setVar _ _ _ _).2
          (Or.inl ((mem_names_setVar _ _ _ _).2 (Or.inl ((mem_names_setVar _ _ _ _).2
          (Or.inl ((mem_names_setVar _ _ _ _).2 (Or.inl ((mem_names_setVar _ _ _ _).2
          (Or.inl huam)))))))))))
      · exact (mem_names_setVar _ _ _ _).2 (Or.inl ((mem_names_setVar _ _ _ _).2
          (Or.inl ((mem_names_setVar _ _ _ _).2 (Or.inl ((mem_names_setVar _ _ _ _).2
          (Or.inr rfl)))))))
      · exact (mem_names_setVar _ _ _ _).2 (Or.inl ((mem_names_setVar _ _ _ _).2
          (Or.inl ((mem_names_setVar _ _ _ _).2 (Or.inr rfl)))))
      · exact (mem_names_setVar _ _ _ _).2 (Or.inl ((mem_names_setVar _ _ _ _).2
          (Or.inr rfl)))
      · exact (mem_names_setVar _ _ _ _).2 (Or.inr rfl)
    · rcases hm with rfl | rfl | rfl | rfl | rfl | rfl | rfl <;> decide

/-- C7 counterexample: the wind feature's returned attributes do not
record the declared variable set — they list "wind speed lvl" where the
registry declares "wnd". -/
theorem C7_wind_attrs_mismatch :
    (List.lookup "wind" features).getD [] = ["wnd", "z", "ua", "va", "ta", "hus", "pa"]
    ∧ (match (get_data envAll cutout0 "wind" false none).result with
       | .ok ds => ds.attrs.varNames
       | .error _ => []) = ["wind speed lvl", "z", "ua", "va", "ta", "hus", "pa"]
    ∧ "wnd" ∈ (List.lookup "wind" features).getD []
    ∧ "wnd" ∉ ["wind speed lvl", "z", "ua", "va", "ta", "hus", "pa"] := by
  decide

/-- C7 (amended): every successful feature calculation returns a dataset
whose variable set equals exactly the feature's declared output set
(never a superset), with the variable-stripped query sub-dict recorded
as provenance; the recorded `variables` list equals the declared set for
influx, surface and wind10m, but for wind it records "wind speed lvl" in
place of the declared "wnd". -/
theorem C7_variable_sets_exact :
    ∀ (env : Env) (all : StrMap) (years : List Nat) (lock : Bool) (ds : Dataset)
      (evs : List Event) (m : StrMap),
      (get_data_influx env all years lock = (.ok ds, evs) →
        subParamsInflux all = .ok m →
        ((∀ n, n ∈ ds.names ↔ n ∈ (List.lookup "influx" features).getD [])
         ∧ ds.attrs.varNames = (List.lookup "influx" features).getD []
         ∧ ds.attrs.params = m
         ∧ List.lookup "variable" ds.attrs.params = none))
      ∧ (get_data_surface env all years lock = (.ok ds, evs) →
        subParamsSurface all = .ok m →
        ((∀ n, n ∈ ds.names ↔ n ∈ (List.lookup "surface" features).getD [])
         ∧ ds.attrs.varNames = (List.lookup "surface" features).getD []
         ∧ ds.attrs.params = m
         ∧ List.lookup "variable" ds.attrs.params = none))
      ∧ (get_data_wind10m env all years lock = (.ok ds, evs) →
        subParamsWind10m all = .ok m →
        ((∀ n, n ∈ ds.names ↔ n ∈ (List.lookup "wind10m" features).getD [])
         ∧ ds.attrs.varNames = (List.lookup "wind10m" features).getD []
         ∧ ds.attrs.params = m
         ∧ List.lookup "variable" ds.attrs.params = none))
      ∧ (get_data_wind env all years lock = (.ok ds, evs) →
        subParamsWind all = .ok m →
        ((∀ n, n ∈ ds.names ↔ n ∈ (List.lookup "wind" features).getD [])
         ∧ ds.attrs.varNames = ["wind speed lvl", "z", "ua", "va", "ta", "hus", "pa"]
         ∧ ds.attrs.varNames ≠ (List.lookup "wind" features).getD []
         ∧ ds.attrs.params = m
         ∧ List.lookup "variable" ds.attrs.params = none)) := by
  intro env all years lock ds evs m
  refine ⟨?_, ?_, ?_, ?_⟩
  · intro h hsub
    obtain ⟨hiff, hvn, hpar⟩ := get_data_influx_ok_shape env all years lock ds evs m hsub h
    have hreg : (List.lookup "influx" features).getD [] = ["influx", "outflux"] := by decide
    rw [hreg]
    refine ⟨?_, hvn, hpar, by rw [hpar]; exact (subParamsInflux_freq all m hsub).2⟩
    intro n
    rw [hiff n]
    simp
  · intro h hsub
    obtain ⟨hiff, hvn, hpar⟩ := get_data_surface_ok_shape env all years lock ds evs m hsub h
    have hreg : (List.lookup "surface" features).getD []
        = ["temperature", "humidity", "pressure"] := by decide
    rw [hreg]
    refine ⟨?_, hvn, hpar, by rw [hpar]; exact (subParamsSurface_freq all m hsub).2⟩
    intro n
    rw [hiff n]
    simp
  · intro h hsub
    obtain ⟨hiff, hvn, hpar⟩ := get_data_wind10m_ok_shape env all years lock ds evs m hsub h
    have hreg : (List.lookup "wind10m" features).getD []
        = ["ua10m", "va10m", "wnd10m"] := by decide
    rw [hreg]
    refine ⟨?_, hvn, hpar, by rw [hpar]; exact (subParamsWind10m_freq all m hsub).2⟩
    intro n
    rw [hiff n]
    simp
  · intro h hsub
    obtain ⟨hiff, hvn, hpar⟩ := get_data_wind_ok_shape env all years lock ds evs m hsub h
    have hreg : (List.lookup "wind" features).getD []
        = ["wnd", "z", "ua", "va", "ta", "hus", "pa"] := by decide
    rw [hreg]
    refine ⟨?_, hvn, by rw [hvn]; decide, hpar,
      by rw [hpar]; exact (subParamsWind_freq all m hsub).2⟩
    intro n
    rw [hiff n]
    simp

/-- Witness for the amended C7 on the concrete influx run. -/
theorem C7_variable_sets_witness :
    dsInfluxOut.attrs.varNames = (List.lookup "influx" features).getD []
    ∧ List.lookup "variable" dsInfluxOut.attrs.params = none :=
  ⟨((C7_variable_sets_exact envAll ((cutout0.esgf_params).getD []) [1999] false dsInfluxOut
      [Event.search [("source_id", "CMCC"), ("variant_label", "r1"),
         ("experiment_id", "ssp2"), ("project", "CMIP6"), ("frequency", "day"),
         ("variable", "rsds")],
       Event.openFiles ["x_19990101-19991231.nc"],
       Event.search [("source_id", "CMCC"), ("variant_label", "r1"),
         ("experiment_id", "ssp2"), ("project", "CMIP6"), ("frequency", "day"),
         ("variable", "rsus")],
       Event.openFiles ["x_19990101-19991231.nc"]]
      [("source_id", "CMCC"), ("variant_label", "r1"), ("experiment_id", "ssp2"),
       ("project", "CMIP6"), ("frequency", "day")]).1 (by decide) (by decide)).2.1,
   ((C7_variable_sets_exact envAll ((cutout0.esgf_params).getD []) [1999] false dsInfluxOut
      [Event.search [("source_id", "CMCC"), ("variant_label", "r1"),
         ("experiment_id", "ssp2"), ("project", "CMIP6"), ("frequency", "day"),
         ("variable", "rsds")],
       Event.openFiles ["x_19990101-19991231.nc"],
       Event.search [("source_id", "CMCC"), ("variant_label", "r1"),
         ("experiment_id", "ssp2"), ("project", "CMIP6"), ("frequency", "day"),
         ("variable", "rsus")],
       Event.openFiles ["x_19990101-19991231.nc"]]
      [("source_id", "CMCC"), ("variant_label", "r1"), ("experiment_id", "ssp2"),
       ("project", "CMIP6"), ("frequency", "day")]).1 (by decide) (by decide)).2.2.2⟩
